import Mathlib

/-!
Shallow embedding of the surface call state machine of
src/src/core/surface/call.c.

Each definition below mirrors the C function of the same name; branches,
assignment order and sentinel handling follow the source.  Conventions:

* machine integers (gpr_uint8/16/32, masks) are Nat; bitmasks use the same
  shift/or/and operations as the C code;
* C callback function pointers (completion functions, user_data) are opaque
  numeric tokens: the call never inspects them, only stores and hands them
  back;
* calls into collaborator subsystems that are out of scope (channel stack,
  completion queue, alarm, metadata context) are recorded as observations in
  the state: a transport op handed to the channel stack is appended to
  executed_ops, a status or details value handed to a caller sink is appended
  to delivered_statuses / delivered_details, user completion callbacks run by
  unlock are appended to delivered_completions;
* byte strings (metadata values, status details) are Lean Strings; a byte
  buffer is its list of slices, a slice its list of bytes;
* GPR_ASSERT aborts the process in C; where an assert constrains a
  transition (call_on_done_recv), the corresponding step of the history
  relation carries the assert as a hypothesis.
-/

namespace GrpcCall

/-- grpc_ioreq_op: the eleven ioreq operation roles.  The enum itself lives in
src/core/surface/call.h (not under src/); the set of roles is fixed by the
spec.  The numeric order is used by the code only to form distinct bit
positions and array indices, which no claim depends on; we list them in the
order of the spec. -/
inductive grpc_ioreq_op where
  | SEND_INITIAL_METADATA
  | SEND_MESSAGE
  | SEND_TRAILING_METADATA
  | SEND_STATUS
  | SEND_CLOSE
  | RECV_INITIAL_METADATA
  | RECV_MESSAGE
  | RECV_STATUS
  | RECV_STATUS_DETAILS
  | RECV_TRAILING_METADATA
  | RECV_CLOSE
deriving DecidableEq, BEq, Repr, Fintype

/-- Numeric value of an ioreq op, used as bit position in need/complete
masks. -/
def opIdx : grpc_ioreq_op → Nat
  | .SEND_INITIAL_METADATA => 0
  | .SEND_MESSAGE => 1
  | .SEND_TRAILING_METADATA => 2
  | .SEND_STATUS => 3
  | .SEND_CLOSE => 4
  | .RECV_INITIAL_METADATA => 5
  | .RECV_MESSAGE => 6
  | .RECV_STATUS => 7
  | .RECV_STATUS_DETAILS => 8
  | .RECV_TRAILING_METADATA => 9
  | .RECV_CLOSE => 10

/-- All ioreq ops, in index order: the iteration space of the C loops
for (i = 0; i < GRPC_IOREQ_OP_COUNT; i++). -/
def allOps : List grpc_ioreq_op :=
  [.SEND_INITIAL_METADATA, .SEND_MESSAGE, .SEND_TRAILING_METADATA,
   .SEND_STATUS, .SEND_CLOSE, .RECV_INITIAL_METADATA, .RECV_MESSAGE,
   .RECV_STATUS, .RECV_STATUS_DETAILS, .RECV_TRAILING_METADATA, .RECV_CLOSE]

/-- request_set[op] in the C code is a gpr_uint8 that is either an op index
below GRPC_IOREQ_OP_COUNT (the anchor op of the group the request belongs
to), REQSET_EMPTY, or REQSET_DONE.  We model the three cases as a sum. -/
inductive reqset where
  | EMPTY
  | DONE
  | group (master : grpc_ioreq_op)
deriving DecidableEq, BEq, Repr

/-- status_source: priority-ordered origins of a received status. -/
inductive status_source where
  | STATUS_FROM_API_OVERRIDE
  | STATUS_FROM_CORE
  | STATUS_FROM_WIRE
deriving DecidableEq, BEq, Repr

/-- grpc_op_error: per-ioreq completion status. -/
inductive grpc_op_error where
  | GRPC_OP_OK
  | GRPC_OP_ERROR
deriving DecidableEq, BEq, Repr

/-- grpc_call_error: synchronous results of submitting requests. -/
inductive grpc_call_error where
  | GRPC_CALL_OK
  | GRPC_CALL_ERROR_TOO_MANY_OPERATIONS
  | GRPC_CALL_ERROR_ALREADY_INVOKED
  | GRPC_CALL_ERROR_NOT_ON_SERVER
  | GRPC_CALL_ERROR_NOT_ON_CLIENT
deriving DecidableEq, BEq, Repr

/-- read_state of the call: how far through the stream we have read. -/
inductive read_state where
  | READ_STATE_INITIAL
  | READ_STATE_GOT_INITIAL_METADATA
  | READ_STATE_READ_CLOSED
  | READ_STATE_STREAM_CLOSED
deriving DecidableEq, BEq, Repr

def read_state.toNat : read_state → Nat
  | .READ_STATE_INITIAL => 0
  | .READ_STATE_GOT_INITIAL_METADATA => 1
  | .READ_STATE_READ_CLOSED => 2
  | .READ_STATE_STREAM_CLOSED => 3

instance : LE read_state := ⟨fun a b => a.toNat ≤ b.toNat⟩

instance (a b : read_state) : Decidable (a ≤ b) :=
  inferInstanceAs (Decidable (a.toNat ≤ b.toNat))

/-- write_state of the call: how far through the stream we have written. -/
inductive write_state where
  | WRITE_STATE_INITIAL
  | WRITE_STATE_STARTED
  | WRITE_STATE_WRITE_CLOSED
deriving DecidableEq, BEq, Repr

def write_state.toNat : write_state → Nat
  | .WRITE_STATE_INITIAL => 0
  | .WRITE_STATE_STARTED => 1
  | .WRITE_STATE_WRITE_CLOSED => 2

instance : LE write_state := ⟨fun a b => a.toNat ≤ b.toNat⟩

instance (a b : write_state) : Decidable (a ≤ b) :=
  inferInstanceAs (Decidable (a.toNat ≤ b.toNat))

/-- grpc_stream_state as reported by the transport (transport.h, not under
src/; only compared against the two closed values here). -/
inductive grpc_stream_state where
  | GRPC_STREAM_OPEN
  | GRPC_STREAM_SEND_CLOSED
  | GRPC_STREAM_RECV_CLOSED
  | GRPC_STREAM_CLOSED
deriving DecidableEq, BEq, Repr

/-- Status codes from the public API (grpc.h).  Only the numeric values the
call surface compares against are needed. -/
def GRPC_STATUS_OK : Nat := 0

def GRPC_STATUS_CANCELLED : Nat := 1

def GRPC_STATUS_UNKNOWN : Nat := 2

def GRPC_STATUS_INVALID_ARGUMENT : Nat := 3

def GRPC_STATUS_DEADLINE_EXCEEDED : Nat := 4

/-- we offset status by a small amount when storing it into transport
metadata as metadata cannot store a 0 value -/
def STATUS_OFFSET : Nat := 1

/-- The interned metadata key the channel uses for status codes
(grpc_channel_get_status_string). -/
def grpc_status_key : String := "grpc-status"

/-- The interned metadata key the channel uses for status details
(grpc_channel_get_message_string). -/
def grpc_message_key : String := "grpc-message"

/-- received_status: one record per status source. -/
structure received_status where
  is_set : Bool
  code : Nat
  details : Option String
deriving DecidableEq, Repr

/-- reqinfo_master: the master record of one active ioreq group. -/
structure reqinfo_master where
  status : grpc_op_error
  on_complete : Nat
  user_data : Nat
  need_mask : Nat
  complete_mask : Nat
deriving DecidableEq, Repr

/-- completed_request: a completion callback queued for delivery. -/
structure completed_request where
  on_complete : Nat
  user_data : Nat
  status : grpc_op_error
deriving DecidableEq, Repr

/-- A byte buffer: its slices, each a list of bytes. -/
abbrev byte_buffer : Type := List (List Nat)

/-- grpc_byte_buffer_length. -/
def byte_buffer_length (b : byte_buffer) : Nat := (b.map List.length).sum

/-- A metadata element as seen by decode_status / recv_metadata: interned key,
value string, and the per-element user-data cache slot
(grpc_mdelem_get_user_data / grpc_mdelem_set_user_data). -/
structure mdelem where
  key : String
  value : String
  user_data : Option Nat
deriving DecidableEq, Repr

/-- A received metadata batch: its element list and its deadline
(none stands for gpr_inf_future). -/
structure metadata_batch where
  list : List mdelem
  deadline : Option Nat
deriving DecidableEq, Repr

/-- A metadata batch built on the send path: plain key/value pairs plus the
batch deadline (none = gpr_inf_future). -/
structure send_metadata_batch where
  list : List (String × String)
  deadline : Option Nat
deriving DecidableEq, Repr

/-- grpc_stream_op on the send path. -/
inductive stream_op where
  | metadata (batch : send_metadata_batch)
  | begin_message (length : Nat)
  | slice (bytes : List Nat)
deriving DecidableEq, Repr

/-- A stream op delivered by the transport into call->recv_ops. -/
inductive recv_op where
  | no_op
  | metadata (batch : metadata_batch)
  | begin_message (length : Nat)
  | slice (bytes : List Nat)
deriving DecidableEq, Repr

/-- grpc_transport_op: the op handed to the top channel filter.  send_ops is
a pointer in C; here has_send_ops records that it was set and send_sops the
stream ops it points at when the op is dispatched.  memset 0 initialisation
gives the defaults (cancel_with_status 0 is GRPC_STATUS_OK, meaning no
cancellation requested). -/
structure grpc_transport_op where
  has_send_ops : Bool := false
  send_sops : List stream_op := []
  is_last_send : Bool := false
  bind_pollset : Bool := false
  recv_requested : Bool := false
  cancel_with_status : Nat := GRPC_STATUS_OK
deriving DecidableEq, Repr

/-- grpc_ioreq_data: in C a union; modelled as a struct carrying every
variant, with only the fields of the request's op meaningful.  recv_metadata
is the application-owned metadata array the SWAP in finish_live_ioreq_op
exchanges with the buffered one; recv_message the application sink the
inbound queue pops into; details_str/details_capacity the caller-grown
details buffer. -/
structure grpc_ioreq_data where
  send_metadata : List (String × String) := []
  send_message : byte_buffer := []
  send_status_code : Nat := 0
  send_status_details : Option String := none
  recv_metadata : List (String × String) := []
  recv_message : Option byte_buffer := none
  details_str : String := ""
  details_capacity : Nat := 0
deriving DecidableEq, Repr

/-- grpc_ioreq: one request of a batch. -/
structure grpc_ioreq where
  op : grpc_ioreq_op
  data : grpc_ioreq_data
deriving DecidableEq, Repr

/-- struct grpc_call: the per-call state.  Locking, reference counts and the
channel-stack tail allocation are concurrency/lifetime bookkeeping outside
the shallow embedding; every data field the modelled functions read or write
is here.  max_message_length is the channel property
grpc_channel_get_max_message_length reads (channel.c is not under src/).
The delivered_*/executed_ops fields are the observation traces described in
the header comment. -/
structure grpc_call where
  is_client : Bool
  max_message_length : Nat
  read_state : read_state
  write_state : write_state
  have_alarm : Bool
  alarm_deadline : Option Nat
  sending : Bool
  receiving : Bool
  completing : Bool
  reading_message : Bool
  last_send_contains : Nat
  request_set : grpc_ioreq_op → reqset
  request_data : grpc_ioreq_op → grpc_ioreq_data
  masters : grpc_ioreq_op → reqinfo_master
  completed_requests : List completed_request
  incoming_queue : List byte_buffer
  buffered_initial_metadata : List (String × String)
  buffered_trailing_metadata : List (String × String)
  owned_metadata : List mdelem
  status : status_source → received_status
  send_initial_metadata : List (String × String)
  send_deadline : Option Nat
  send_ops : List stream_op
  incoming_message : List (List Nat)
  incoming_message_length : Nat
  delivered_statuses : List Nat
  delivered_details : List String
  delivered_completions : List completed_request
  executed_ops : List grpc_transport_op

/-- grpc_call_create.  memset 0 gives the false/zero/empty defaults; all
request_set slots start REQSET_EMPTY and, for a client, the
SEND_TRAILING_METADATA and SEND_STATUS slots are retired to REQSET_DONE at
birth.  is_client in the source is (server_transport_data == NULL).  For a
server call an initial recv transport op is issued immediately (the "server
hack"), setting receiving; a non-infinite send deadline arms the alarm. -/
def grpc_call_create (is_client : Bool) (max_message_length : Nat)
    (add_initial_metadata : List (String × String))
    (send_deadline : Option Nat) : grpc_call :=
  { is_client := is_client
    max_message_length := max_message_length
    read_state := .READ_STATE_INITIAL
    write_state := .WRITE_STATE_INITIAL
    have_alarm := send_deadline.isSome
    alarm_deadline := send_deadline
    sending := false
    receiving := !is_client
    completing := false
    reading_message := false
    last_send_contains := 0
    request_set := fun op =>
      if is_client ∧ (op = .SEND_TRAILING_METADATA ∨ op = .SEND_STATUS) then
        .DONE
      else .EMPTY
    request_data := fun _ => {}
    masters := fun _ =>
      { status := .GRPC_OP_OK, on_complete := 0, user_data := 0,
        need_mask := 0, complete_mask := 0 }
    completed_requests := []
    incoming_queue := []
    buffered_initial_metadata := []
    buffered_trailing_metadata := []
    owned_metadata := []
    status := fun _ => { is_set := false, code := 0, details := none }
    send_initial_metadata := add_initial_metadata
    send_deadline := send_deadline
    send_ops := []
    incoming_message := []
    incoming_message_length := 0
    delivered_statuses := []
    delivered_details := []
    delivered_completions := []
    executed_ops := if is_client then [] else [{ recv_requested := true }] }

/-- Helper: update one request_set slot. -/
def upd_request_set (st : grpc_call) (op : grpc_ioreq_op) (v : reqset) :
    grpc_call :=
  { st with request_set := Function.update st.request_set op v }

/-- Helper: update one request_data slot. -/
def upd_request_data (st : grpc_call) (op : grpc_ioreq_op)
    (f : grpc_ioreq_data → grpc_ioreq_data) : grpc_call :=
  { st with request_data :=
      Function.update st.request_data op (f (st.request_data op)) }

/-- Helper: update one master record. -/
def upd_master (st : grpc_call) (g : grpc_ioreq_op) (m : reqinfo_master) :
    grpc_call :=
  { st with masters := Function.update st.masters g m }

/-- set_status_code: record the code for the source and, when the code means
the call is going away (client: CANCELLED, server: any non-OK), flush the
inbound message queue. -/
def set_status_code (st : grpc_call) (source : status_source) (code : Nat) :
    grpc_call :=
  let r : received_status :=
    { is_set := true, code := code, details := (st.status source).details }
  let st := { st with status := Function.update st.status source r }
  let flush :=
    if st.is_client then code = GRPC_STATUS_CANCELLED
    else code ≠ GRPC_STATUS_OK
  if flush ∧ ¬st.incoming_queue.isEmpty then { st with incoming_queue := [] }
  else st

/-- set_status_details: replace (unref + overwrite) the detail string of the
source. -/
def set_status_details (st : grpc_call) (source : status_source)
    (details : Option String) : grpc_call :=
  let r : received_status :=
    { is_set := (st.status source).is_set, code := (st.status source).code,
      details := details }
  { st with status := Function.update st.status source r }

/-- is_op_live: an op is live iff its slot holds a group index (is below
GRPC_IOREQ_OP_COUNT) and its bit is not yet in the group's complete_mask. -/
def is_op_live (st : grpc_call) (op : grpc_ioreq_op) : Bool :=
  match st.request_set op with
  | .group g =>
      decide ((st.masters g).complete_mask &&& (1 <<< opIdx op) = 0)
  | _ => false

/-- need_more_data: a recv transport op is wanted iff some recv-class ioreq
is live (RECV_CLOSE only counts while the inbound queue is empty), or the
call is a server that has not started writing and whose stream is not fully
closed. -/
def need_more_data (st : grpc_call) : Bool :=
  is_op_live st .RECV_INITIAL_METADATA ||
  is_op_live st .RECV_MESSAGE ||
  is_op_live st .RECV_TRAILING_METADATA ||
  is_op_live st .RECV_STATUS ||
  is_op_live st .RECV_STATUS_DETAILS ||
  (is_op_live st .RECV_CLOSE && st.incoming_queue.isEmpty) ||
  (decide (st.write_state = .WRITE_STATE_INITIAL) && !st.is_client &&
    !(decide (st.read_state = .READ_STATE_STREAM_CLOSED)))

/-- get_final_status: walk the three sources in priority order; the first
with is_set wins; with none set a client reports UNKNOWN and a server OK.
The C function hands the code to the out.recv_status.set_value sink; the
delivered code is the function's value here. -/
def get_final_status (st : grpc_call) : Nat :=
  if (st.status .STATUS_FROM_API_OVERRIDE).is_set then
    (st.status .STATUS_FROM_API_OVERRIDE).code
  else if (st.status .STATUS_FROM_CORE).is_set then
    (st.status .STATUS_FROM_CORE).code
  else if (st.status .STATUS_FROM_WIRE).is_set then
    (st.status .STATUS_FROM_WIRE).code
  else if st.is_client then GRPC_STATUS_UNKNOWN
  else GRPC_STATUS_OK

/-- Copy a detail string into the caller's buffer, growing its capacity to
GPR_MAX(len + 1, capacity * 3 / 2) when it cannot hold len bytes plus the
NUL terminator.  Returns the delivered string and the new capacity. -/
def deliver_details (d : String) (capacity : Nat) : String × Nat :=
  if d.length + 1 > capacity then (d, max (d.length + 1) (capacity * 3 / 2))
  else (d, capacity)

/-- The no_details path of get_final_details: an empty NUL-terminated string
in a buffer allocated to capacity 8 when none exists yet. -/
def deliver_no_details (capacity : Nat) : String × Nat :=
  if capacity = 0 then ("", 8) else ("", capacity)

/-- get_final_details: walk the sources in priority order; the first with
is_set wins.  If that source carries a detail string it is copied out,
otherwise (goto no_details) an empty string is emitted; likewise when no
source is set at all. -/
def get_final_details (st : grpc_call) (capacity : Nat) : String × Nat :=
  if (st.status .STATUS_FROM_API_OVERRIDE).is_set then
    match (st.status .STATUS_FROM_API_OVERRIDE).details with
    | some d => deliver_details d capacity
    | none => deliver_no_details capacity
  else if (st.status .STATUS_FROM_CORE).is_set then
    match (st.status .STATUS_FROM_CORE).details with
    | some d => deliver_details d capacity
    | none => deliver_no_details capacity
  else if (st.status .STATUS_FROM_WIRE).is_set then
    match (st.status .STATUS_FROM_WIRE).details with
    | some d => deliver_details d capacity
    | none => deliver_no_details capacity
  else deliver_no_details capacity

/-- The per-op retirement of finish_live_ioreq_op, applied to the op indices
whose slot equals the completing group: the slot is set to REQSET_DONE
(messages go back to REQSET_EMPTY on OK so the op can be reused, and degrade
the write state on error), and the op-specific commit action runs
(deliver the final status / details, SWAP the buffered metadata with the
application array). -/
def retire_one (mset : grpc_ioreq_op) (st : grpc_call) (i : grpc_ioreq_op) :
    grpc_call :=
  let st := upd_request_set st i .DONE
  match i with
  | .RECV_MESSAGE | .SEND_MESSAGE =>
      if (st.masters mset).status = .GRPC_OP_OK then upd_request_set st i .EMPTY
      else { st with write_state := .WRITE_STATE_WRITE_CLOSED }
  | .RECV_CLOSE | .SEND_INITIAL_METADATA | .SEND_TRAILING_METADATA
  | .SEND_STATUS | .SEND_CLOSE => st
  | .RECV_STATUS =>
      { st with delivered_statuses :=
          st.delivered_statuses ++ [get_final_status st] }
  | .RECV_STATUS_DETAILS =>
      let out := get_final_details st
        (st.request_data .RECV_STATUS_DETAILS).details_capacity
      let st := upd_request_data st .RECV_STATUS_DETAILS
        (fun d => { d with details_str := out.1, details_capacity := out.2 })
      { st with delivered_details := st.delivered_details ++ [out.1] }
  | .RECV_INITIAL_METADATA =>
      let app := (st.request_data .RECV_INITIAL_METADATA).recv_metadata
      let st := upd_request_data st .RECV_INITIAL_METADATA
        (fun d => { d with recv_metadata := st.buffered_initial_metadata })
      { st with buffered_initial_metadata := app }
  | .RECV_TRAILING_METADATA =>
      let app := (st.request_data .RECV_TRAILING_METADATA).recv_metadata
      let st := upd_request_data st .RECV_TRAILING_METADATA
        (fun d => { d with recv_metadata := st.buffered_trailing_metadata })
      { st with buffered_trailing_metadata := app }

/-- finish_live_ioreq_op: mark the op's bit in its group's complete_mask,
degrade the group status on error, and when the mask now equals need_mask
retire every slot of the group and queue the group's single completion
callback.  The caller (finish_ioreq_op) guarantees the op is live, so the
slot holds a group index; on the other slot values the function is modelled
as the identity. -/
def finish_live_ioreq_op (st : grpc_call) (op : grpc_ioreq_op)
    (status : grpc_op_error) : grpc_call :=
  match st.request_set op with
  | .group master_set =>
    let m0 := st.masters master_set
    let m1 := { m0 with
      complete_mask := m0.complete_mask ||| (1 <<< opIdx op) }
    let m2 := if status ≠ .GRPC_OP_OK then { m1 with status := status } else m1
    let st := upd_master st master_set m2
    if m2.complete_mask = m2.need_mask then
      let st := allOps.foldl
        (fun s i =>
          if s.request_set i = .group master_set then retire_one master_set s i
          else s) st
      let cr : completed_request :=
        { status := (st.masters master_set).status,
          on_complete := (st.masters master_set).on_complete,
          user_data := (st.masters master_set).user_data }
      { st with completed_requests := st.completed_requests ++ [cr] }
    else st
  | _ => st

/-- finish_ioreq_op: finish the op if it is live, otherwise ignore. -/
def finish_ioreq_op (st : grpc_call) (op : grpc_ioreq_op)
    (status : grpc_op_error) : grpc_call :=
  if is_op_live st op then finish_live_ioreq_op st op status else st

/-- gpr_ltoa.  Modelled from the spec: status codes are serialized as
decimal ASCII in a metadata value (gpr_ltoa lives in
src/core/support/string.c, which is not under src/). -/
def gpr_ltoa (n : Nat) : String :=
  if n = 0 then "0"
  else ⟨(Nat.digits 10 n).reverse.map (fun d => Char.ofNat (48 + d))⟩

/-- gpr_parse_bytes_to_uint32.  Modelled from the spec: the status parse is
lenient, a value that is not an unsigned decimal number fails to parse
(gpr_parse_bytes_to_uint32 lives in src/core/support/string.c, which is not
under src/). -/
def gpr_parse_bytes_to_uint32 (s : String) : Option Nat :=
  if s.data = [] then none
  else if s.data.all (fun c => 48 ≤ c.toNat && c.toNat ≤ 57) then
    some (s.data.foldl (fun a c => 10 * a + (c.toNat - 48)) 0)
  else none

/-- decode_status: answer from the per-element user-data cache when set
(stored offset by STATUS_OFFSET because transport metadata cannot store 0);
otherwise parse the value as an unsigned decimal (falling back to
GRPC_STATUS_UNKNOWN) and memoize status + STATUS_OFFSET on the element. -/
def decode_status (md : mdelem) : Nat × mdelem :=
  match md.user_data with
  | some u => (u - STATUS_OFFSET, md)
  | none =>
      let status :=
        match gpr_parse_bytes_to_uint32 md.value with
        | some v => v
        | none => GRPC_STATUS_UNKNOWN
      (status, { md with user_data := some (status + STATUS_OFFSET) })

/-- The chain_metadata_from_app links application key/value pairs into an
mdelem list; here the list of pairs itself. -/
def chain_metadata_from_app (md : List (String × String)) :
    List (String × String) := md

/-- The WRITE_STATE_STARTED stage of fill_send_ops (also reached by
fallthrough from WRITE_STATE_INITIAL): append the pending message, and on
SEND_CLOSE mark the op as last-send, close the write state, and for a server
append the trailing-metadata batch carrying the grpc-status (and optional
grpc-message) pair. -/
def fill_send_started (st : grpc_call) (op : grpc_transport_op) :
    grpc_call × grpc_transport_op :=
  let msg :=
    if is_op_live st .SEND_MESSAGE then
      let data := st.request_data .SEND_MESSAGE
      let st := { st with
        send_ops := st.send_ops ++
          [.begin_message (byte_buffer_length data.send_message)] ++
          data.send_message.map stream_op.slice,
        last_send_contains :=
          st.last_send_contains ||| (1 <<< opIdx .SEND_MESSAGE) }
      (st, { op with has_send_ops := true })
    else (st, op)
  let st := msg.1
  let op := msg.2
  if is_op_live st .SEND_CLOSE then
    let op := { op with is_last_send := true, has_send_ops := true }
    let st := { st with
      last_send_contains :=
        st.last_send_contains ||| (1 <<< opIdx .SEND_CLOSE),
      write_state := .WRITE_STATE_WRITE_CLOSED }
    let st :=
      if !st.is_client then
        let tdata := st.request_data .SEND_TRAILING_METADATA
        let sdata := st.request_data .SEND_STATUS
        let mdl := chain_metadata_from_app tdata.send_metadata ++
          [(grpc_status_key, gpr_ltoa sdata.send_status_code)] ++
          (match sdata.send_status_details with
           | some d => [(grpc_message_key, d)]
           | none => [])
        { st with send_ops := st.send_ops ++
            [stream_op.metadata ⟨mdl, none⟩] }
      else st
    (st, op)
  else (st, op)

/-- fill_send_ops: serialize whatever send-class work the write state
permits into one transport op.  In WRITE_STATE_INITIAL a live
SEND_INITIAL_METADATA emits the initial metadata batch (creation-prepended
elements linked in front of the application ones), binds the pollset, moves
the write state to STARTED and falls through to the STARTED stage; a
non-live one breaks out.  At the end, an op that gained send work gets the
on_done_send callback and a snapshot of the call's send op buffer. -/
def fill_send_ops (st : grpc_call) (op : grpc_transport_op) :
    grpc_call × grpc_transport_op :=
  let stage :=
    match st.write_state with
    | .WRITE_STATE_INITIAL =>
        if is_op_live st .SEND_INITIAL_METADATA then
          let data := st.request_data .SEND_INITIAL_METADATA
          let mdl := st.send_initial_metadata.reverse ++
            chain_metadata_from_app data.send_metadata
          let st := { st with
            send_ops := st.send_ops ++
              [stream_op.metadata ⟨mdl, st.send_deadline⟩],
            last_send_contains :=
              st.last_send_contains ||| (1 <<< opIdx .SEND_INITIAL_METADATA),
            write_state := .WRITE_STATE_STARTED,
            send_initial_metadata := [] }
          let op := { op with has_send_ops := true, bind_pollset := true }
          (st, op, true)
        else (st, op, false)
    | .WRITE_STATE_STARTED => (st, op, true)
    | .WRITE_STATE_WRITE_CLOSED => (st, op, false)
  let st := stage.1
  let op := stage.2.1
  let out := if stage.2.2 then fill_send_started st op else (st, op)
  let st := out.1
  let op := out.2
  if op.has_send_ops then (st, { op with send_sops := st.send_ops })
  else (st, op)

/-- execute_op: hand the transport op to the top element of the channel
stack (out of scope); observed as a trace append. -/
def execute_op (st : grpc_call) (op : grpc_transport_op) : grpc_call :=
  { st with executed_ops := st.executed_ops ++ [op] }

/-- The under-lock portion of unlock: prepare (at most) one recv-side and
one send-side transport op and snapshot the queued completions.  Returns the
updated call, the op, whether an op must be dispatched, and the snapshot. -/
def unlock_prep (st : grpc_call) :
    grpc_call × grpc_transport_op × Bool × List completed_request :=
  let op : grpc_transport_op := {}
  let recv :=
    if ¬st.receiving ∧ need_more_data st then
      ({ st with receiving := true },
       { op with recv_requested := true }, true)
    else (st, op, false)
  let st := recv.1
  let op := recv.2.1
  let start_op := recv.2.2
  let send :=
    if ¬st.sending then
      let filled := fill_send_ops st op
      if filled.2.has_send_ops then
        ({ filled.1 with sending := true }, filled.2, true)
      else (filled.1, filled.2, start_op)
    else (st, op, start_op)
  let st := send.1
  let op := send.2.1
  let start_op := send.2.2
  let compl :=
    if ¬st.completing ∧ st.completed_requests ≠ [] then
      ({ st with completing := true, completed_requests := [] },
       st.completed_requests)
    else (st, [])
  (compl.1, op, start_op, compl.2)

/-- One full pass of unlock without callback delivery: prepare and, if
needed, dispatch the transport op. -/
def unlock_once (st : grpc_call) : grpc_call × List completed_request :=
  let prep := unlock_prep st
  let st := prep.1
  let op := prep.2.1
  let start_op := prep.2.2.1
  let snapshot := prep.2.2.2
  (if start_op then execute_op st op else st, snapshot)

/-- unlock: the work pump.  After the pass, any snapshotted completions are
delivered outside the lock, completing is cleared and unlock runs again.
The user callbacks are external to the model and mutate nothing, and the
snapshot emptied the completion queue, so the recursive unlock finds no new
completions: it is exactly one more pass. -/
def unlock (st : grpc_call) : grpc_call :=
  let pass := unlock_once st
  let st1 := pass.1
  if pass.2 = [] then st1
  else
    let st2 := { st1 with
      delivered_completions := st1.delivered_completions ++ pass.2 }
    (unlock_once { st2 with completing := false }).1

/-- grpc_call_cancel_with_status: record the status and details under
API_OVERRIDE, release the lock (running the pump), then inject a cancel
transport op into the stack.  description NULL is modelled as none. -/
def grpc_call_cancel_with_status (st : grpc_call) (status : Nat)
    (description : Option String) : grpc_call_error × grpc_call :=
  let op : grpc_transport_op := { cancel_with_status := status }
  let st := set_status_code st .STATUS_FROM_API_OVERRIDE status
  let st := set_status_details st .STATUS_FROM_API_OVERRIDE description
  let st := unlock st
  let st := execute_op st op
  (.GRPC_CALL_OK, st)

/-- grpc_call_cancel: cancel with GRPC_STATUS_CANCELLED and "Cancelled". -/
def grpc_call_cancel (st : grpc_call) : grpc_call_error × grpc_call :=
  grpc_call_cancel_with_status st GRPC_STATUS_CANCELLED (some "Cancelled")

/-- finish_message: assemble the accumulated slices into one byte buffer,
push it onto the inbound queue and leave message-reading mode. -/
def finish_message (st : grpc_call) : grpc_call :=
  { st with
    incoming_queue := st.incoming_queue ++ [st.incoming_message],
    incoming_message := [],
    reading_message := false }

/-- begin_message: reject (by cancelling the call) a message begun while one
is still being read or longer than the channel maximum; otherwise either
record the declared length or, for a zero-length message, finish it
immediately.  Returns the C int result (0 = failure). -/
def begin_message (st : grpc_call) (msg_length : Nat) : Nat × grpc_call :=
  if st.reading_message then
    let message := "Message terminated early; read " ++
      toString (byte_buffer_length st.incoming_message) ++
      " bytes, expected " ++ toString st.incoming_message_length
    (0, (grpc_call_cancel_with_status st GRPC_STATUS_INVALID_ARGUMENT
      (some message)).2)
  else if msg_length > st.max_message_length then
    let message := "Maximum message length of " ++
      toString st.max_message_length ++
      " exceeded by a message of length " ++ toString msg_length
    (0, (grpc_call_cancel_with_status st GRPC_STATUS_INVALID_ARGUMENT
      (some message)).2)
  else if msg_length > 0 then
    let st := { st with
      reading_message := true, incoming_message_length := msg_length }
    (1, st)
  else (1, finish_message st)

/-- add_slice_to_message: drop empty slices; payload outside a message or
beyond the declared length cancels the call with INVALID_ARGUMENT and
reports failure; reaching the declared length exactly finishes the
message. -/
def add_slice_to_message (st : grpc_call) (slice : List Nat) :
    Nat × grpc_call :=
  if slice.length = 0 then (1, st)
  else if ¬st.reading_message then
    (0, (grpc_call_cancel_with_status st GRPC_STATUS_INVALID_ARGUMENT
      (some "Received payload data while not reading a message")).2)
  else
    let st := { st with incoming_message := st.incoming_message ++ [slice] }
    if byte_buffer_length st.incoming_message > st.incoming_message_length
    then
      let message := "Receiving message overflow; read " ++
        toString (byte_buffer_length st.incoming_message) ++
        " bytes, expected " ++ toString st.incoming_message_length
      (0, (grpc_call_cancel_with_status st GRPC_STATUS_INVALID_ARGUMENT
        (some message)).2)
    else if byte_buffer_length st.incoming_message =
        st.incoming_message_length then
      (1, finish_message st)
    else (1, st)

/-- set_deadline_alarm.  Arming twice is a fatal assert in the source; that
situation is modelled as the identity (the process has aborted). -/
def set_deadline_alarm (st : grpc_call) (deadline : Nat) : grpc_call :=
  if st.have_alarm then st
  else { st with have_alarm := true, alarm_deadline := some deadline }

/-- One element of the recv_metadata loop: route a status-key element to
set_status_code(WIRE, decode_status), a message-key element to
set_status_details(WIRE), and anything else into the buffered metadata array
selected by is_trailing, taking ownership of the element. -/
def recv_md_elem (is_trailing : Bool) (st : grpc_call) (e : mdelem) :
    grpc_call :=
  if e.key = grpc_status_key then
    set_status_code st .STATUS_FROM_WIRE (decode_status e).1
  else if e.key = grpc_message_key then
    set_status_details st .STATUS_FROM_WIRE (some e.value)
  else
    let st :=
      if is_trailing then
        { st with buffered_trailing_metadata :=
            st.buffered_trailing_metadata ++ [(e.key, e.value)] }
      else
        { st with buffered_initial_metadata :=
            st.buffered_initial_metadata ++ [(e.key, e.value)] }
    { st with owned_metadata := st.owned_metadata ++ [e] }

/-- recv_metadata: classify the batch as trailing iff initial metadata was
already received, route each element, arm the deadline alarm if the batch
carries a deadline, and on an initial batch advance the read state to
GOT_INITIAL_METADATA. -/
def recv_metadata (st : grpc_call) (md : metadata_batch) : grpc_call :=
  let is_trailing :=
    decide (read_state.READ_STATE_GOT_INITIAL_METADATA ≤ st.read_state)
  let st := md.list.foldl (recv_md_elem is_trailing) st
  let st :=
    match md.deadline with
    | some d => set_deadline_alarm st d
    | none => st
  if !is_trailing then
    { st with read_state := .READ_STATE_GOT_INITIAL_METADATA }
  else st

/-- finish_read_ops: opportunistically satisfy recv-class ioreqs from
buffered state.  A live RECV_MESSAGE pops the inbound queue into the caller
sink and completes if the pop was non-empty; the read state then decides
(with C fallthrough) which further recv ops can complete. -/
def finish_read_ops (st : grpc_call) : grpc_call :=
  let pop :=
    if is_op_live st .RECV_MESSAGE then
      match st.incoming_queue with
      | [] =>
          (true, upd_request_data st .RECV_MESSAGE
            (fun d => { d with recv_message := none }))
      | b :: rest =>
          let st := upd_request_data { st with incoming_queue := rest }
            .RECV_MESSAGE (fun d => { d with recv_message := some b })
          let st := finish_live_ioreq_op st .RECV_MESSAGE .GRPC_OP_OK
          (st.incoming_queue.isEmpty, st)
    else (st.incoming_queue.isEmpty, st)
  let empty := pop.1
  let st := pop.2
  let rs := st.read_state
  let st :=
    if rs = .READ_STATE_STREAM_CLOSED ∧ empty then
      finish_ioreq_op st .RECV_CLOSE .GRPC_OP_OK
    else st
  let st :=
    if read_state.READ_STATE_READ_CLOSED ≤ rs ∧ empty then
      finish_ioreq_op st .RECV_MESSAGE .GRPC_OP_OK
    else st
  let st :=
    if read_state.READ_STATE_READ_CLOSED ≤ rs then
      let st := finish_ioreq_op st .RECV_STATUS .GRPC_OP_OK
      let st := finish_ioreq_op st .RECV_STATUS_DETAILS .GRPC_OP_OK
      finish_ioreq_op st .RECV_TRAILING_METADATA .GRPC_OP_OK
    else st
  if read_state.READ_STATE_GOT_INITIAL_METADATA ≤ rs then
    finish_ioreq_op st .RECV_INITIAL_METADATA .GRPC_OP_OK
  else st

/-- early_out_write_ops: fail send-class ioreqs impossible for the current
write state (with C fallthrough from WRITE_CLOSED into STARTED). -/
def early_out_write_ops (st : grpc_call) : grpc_call :=
  match st.write_state with
  | .WRITE_STATE_WRITE_CLOSED =>
      let st := finish_ioreq_op st .SEND_MESSAGE .GRPC_OP_ERROR
      let st := finish_ioreq_op st .SEND_STATUS .GRPC_OP_ERROR
      let st := finish_ioreq_op st .SEND_TRAILING_METADATA .GRPC_OP_ERROR
      let st := finish_ioreq_op st .SEND_CLOSE .GRPC_OP_OK
      finish_ioreq_op st .SEND_INITIAL_METADATA .GRPC_OP_ERROR
  | .WRITE_STATE_STARTED =>
      finish_ioreq_op st .SEND_INITIAL_METADATA .GRPC_OP_ERROR
  | .WRITE_STATE_INITIAL => st

/-- call_on_done_send: resolve the ioreqs recorded in last_send_contains
with the transport's verdict (SEND_CLOSE resolves trailing metadata and
status with it), clear the mask and the sending flag, and pump. -/
def call_on_done_send (st : grpc_call) (success : Bool) : grpc_call :=
  let error : grpc_op_error := if success then .GRPC_OP_OK else .GRPC_OP_ERROR
  let st :=
    if st.last_send_contains &&& (1 <<< opIdx .SEND_INITIAL_METADATA) ≠ 0 then
      finish_ioreq_op st .SEND_INITIAL_METADATA error
    else st
  let st :=
    if st.last_send_contains &&& (1 <<< opIdx .SEND_MESSAGE) ≠ 0 then
      finish_ioreq_op st .SEND_MESSAGE error
    else st
  let st :=
    if st.last_send_contains &&& (1 <<< opIdx .SEND_CLOSE) ≠ 0 then
      let st := finish_ioreq_op st .SEND_TRAILING_METADATA error
      let st := finish_ioreq_op st .SEND_STATUS error
      finish_ioreq_op st .SEND_CLOSE .GRPC_OP_OK
    else st
  let st := { st with last_send_contains := 0, sending := false }
  unlock st

/-- The dispatch step of the call_on_done_recv loop; the loop runs while the
success int stays non-zero, so a failed body short-circuits the rest. -/
def recv_dispatch (acc : Nat × grpc_call) (op : recv_op) : Nat × grpc_call :=
  if acc.1 = 0 then acc
  else
    match op with
    | .no_op => acc
    | .metadata b => (acc.1, recv_metadata acc.2 b)
    | .begin_message len => begin_message acc.2 len
    | .slice s => add_slice_to_message acc.2 s

/-- call_on_done_recv: the transport finished a recv op.  On success,
dispatch every received stream op (stopping at the first framing failure,
which already cancelled the call), raise the read state according to the
transport-reported stream state (asserted monotone in the source), cancel
the alarm when fully closed, and drain; on failure, fail every recv-class
ioreq.  recv_state and the op buffer contents are transport-written inputs.
Ends by clearing the buffer, dropping receiving and pumping. -/
def call_on_done_recv (st : grpc_call) (success : Bool)
    (ops : List recv_op) (recv_state : grpc_stream_state) : grpc_call :=
  let st := { st with receiving := false }
  let st :=
    if success then
      let st := (ops.foldl recv_dispatch (1, st)).2
      let st :=
        if recv_state = .GRPC_STREAM_RECV_CLOSED then
          { st with read_state := .READ_STATE_READ_CLOSED }
        else st
      let st :=
        if recv_state = .GRPC_STREAM_CLOSED then
          { st with
            read_state := .READ_STATE_STREAM_CLOSED, have_alarm := false }
        else st
      finish_read_ops st
    else
      let st := finish_ioreq_op st .RECV_MESSAGE .GRPC_OP_ERROR
      let st := finish_ioreq_op st .RECV_STATUS .GRPC_OP_ERROR
      let st := finish_ioreq_op st .RECV_CLOSE .GRPC_OP_ERROR
      let st := finish_ioreq_op st .RECV_TRAILING_METADATA .GRPC_OP_ERROR
      let st := finish_ioreq_op st .RECV_INITIAL_METADATA .GRPC_OP_ERROR
      finish_ioreq_op st .RECV_STATUS_DETAILS .GRPC_OP_ERROR
  unlock st

/-- start_ioreq_error: roll back every slot this start_ioreq call mutated
(recorded in the have_ops bitmask) to REQSET_EMPTY and return the error. -/
def start_ioreq_error (st : grpc_call) (mutated_ops : Nat)
    (ret : grpc_call_error) : grpc_call_error × grpc_call :=
  (ret, { st with request_set := fun i =>
      if mutated_ops &&& (1 <<< opIdx i) ≠ 0 then .EMPTY
      else st.request_set i })

/-- The validation/recording loop of start_ioreq: an occupied slot aborts
with TOO_MANY_OPERATIONS, a retired one with ALREADY_INVOKED (both rolling
back); an empty slot records the request data and joins the group anchored
at opset.  Returns the accumulated have_ops mask on success. -/
def start_ioreq_loop (opset : grpc_ioreq_op) :
    List grpc_ioreq → Nat → grpc_call → grpc_call_error × grpc_call × Nat
  | [], have_ops, st => (.GRPC_CALL_OK, st, have_ops)
  | r :: rest, have_ops, st =>
    match st.request_set r.op with
    | .group _ =>
        let e := start_ioreq_error st have_ops
          .GRPC_CALL_ERROR_TOO_MANY_OPERATIONS
        (e.1, e.2, have_ops)
    | .DONE =>
        let e := start_ioreq_error st have_ops
          .GRPC_CALL_ERROR_ALREADY_INVOKED
        (e.1, e.2, have_ops)
    | .EMPTY =>
        let st := upd_request_data st r.op (fun _ => r.data)
        let st := upd_request_set st r.op (.group opset)
        start_ioreq_loop opset rest (have_ops ||| (1 <<< opIdx r.op)) st

/-- start_ioreq: an empty batch is OK; otherwise the first request's op
anchors the group, the loop validates and records every request, the master
is initialized with the union mask and the completion callback, and the
opportunistic drains run. -/
def start_ioreq (st : grpc_call) (reqs : List grpc_ioreq)
    (completion : Nat) (user_data : Nat) : grpc_call_error × grpc_call :=
  match reqs with
  | [] => (.GRPC_CALL_OK, st)
  | r0 :: _ =>
    let opset := r0.op
    match start_ioreq_loop opset reqs 0 st with
    | (.GRPC_CALL_OK, st, have_ops) =>
        let st := upd_master st opset
          { status := .GRPC_OP_OK, need_mask := have_ops, complete_mask := 0,
            on_complete := completion, user_data := user_data }
        let st := finish_read_ops st
        let st := early_out_write_ops st
        (.GRPC_CALL_OK, st)
    | (err, st, _) => (err, st)

/-- grpc_call_start_ioreq_and_call_back: start_ioreq under the lock, then
pump on unlock. -/
def grpc_call_start_ioreq_and_call_back (st : grpc_call)
    (reqs : List grpc_ioreq) (completion : Nat) (user_data : Nat) :
    grpc_call_error × grpc_call :=
  let r := start_ioreq st reqs completion user_data
  (r.1, unlock r.2)

/-- grpc_call_destroy: cancel the alarm, note whether the stream is already
fully closed, pump on unlock, and cancel the call if it was not. -/
def grpc_call_destroy (st : grpc_call) : grpc_call :=
  let st := { st with have_alarm := false }
  let cancel := st.read_state ≠ .READ_STATE_STREAM_CLOSED
  let st := unlock st
  if cancel then (grpc_call_cancel st).2 else st

/-- A call history: one step for each modelled operation that can run on a
call after creation.  Transport-written inputs (the recv op buffer, the
reported stream state, the send verdict) and application inputs (requests,
codes, metadata) are universally quantified.  The on_done_recv step carries
the GPR_ASSERT of the source as a hypothesis: the asserted condition aborts
the process in C, so no post-state exists when it fails. -/
inductive Step : grpc_call → grpc_call → Prop where
  | set_status_code (st : grpc_call) (source : status_source) (code : Nat) :
      Step st (set_status_code st source code)
  | set_status_details (st : grpc_call) (source : status_source)
      (details : Option String) :
      Step st (set_status_details st source details)
  | finish_ioreq_op (st : grpc_call) (op : grpc_ioreq_op)
      (status : grpc_op_error) :
      Step st (finish_ioreq_op st op status)
  | finish_read_ops (st : grpc_call) : Step st (finish_read_ops st)
  | early_out_write_ops (st : grpc_call) : Step st (early_out_write_ops st)
  | start_ioreq (st : grpc_call) (reqs : List grpc_ioreq)
      (completion user_data : Nat) :
      Step st (grpc_call_start_ioreq_and_call_back st reqs completion
        user_data).2
  | fill_send_ops (st : grpc_call) (op : grpc_transport_op) :
      Step st (fill_send_ops st op).1
  | unlock (st : grpc_call) : Step st (unlock st)
  | call_on_done_send (st : grpc_call) (success : Bool) :
      Step st (call_on_done_send st success)
  | call_on_done_recv (st : grpc_call) (success : Bool)
      (ops : List recv_op) (recv_state : grpc_stream_state)
      (h : recv_state = .GRPC_STREAM_RECV_CLOSED →
        st.read_state ≤ read_state.READ_STATE_READ_CLOSED) :
      Step st (call_on_done_recv st success ops recv_state)
  | recv_metadata (st : grpc_call) (md : metadata_batch) :
      Step st (recv_metadata st md)
  | begin_message (st : grpc_call) (len : Nat) :
      Step st (begin_message st len).2
  | add_slice_to_message (st : grpc_call) (slice : List Nat) :
      Step st (add_slice_to_message st slice).2
  | finish_message (st : grpc_call) : Step st (finish_message st)
  | cancel_with_status (st : grpc_call) (status : Nat)
      (description : Option String) :
      Step st (grpc_call_cancel_with_status st status description).2
  | cancel (st : grpc_call) : Step st (grpc_call_cancel st).2
  | destroy (st : grpc_call) : Step st (grpc_call_destroy st)

/-- Both stream-progress states of b are at least as far along as those of
a: the order in which the monotonicity claim is stated. -/
def rw_le (a b : grpc_call) : Prop :=
  a.read_state ≤ b.read_state ∧ a.write_state ≤ b.write_state

/-- A sequence of set_status_code calls applied in order. -/
def run_sets (st : grpc_call) (events : List (status_source × Nat)) :
    grpc_call :=
  events.foldl (fun s e => set_status_code s e.1 e.2) st

/-- The selection rule asserted by the claim about get_final_details: the
detail string of the first source, in priority order, that has one
(regardless of is_set).  Used only to exhibit the counterexample against
get_final_details. -/
def spec_first_details (st : grpc_call) : Option String :=
  match (st.status .STATUS_FROM_API_OVERRIDE).details with
  | some d => some d
  | none =>
    match (st.status .STATUS_FROM_CORE).details with
    | some d => some d
    | none => (st.status .STATUS_FROM_WIRE).details

/-! ## Theorems -/

theorem opIdx_inj : ∀ a b : grpc_ioreq_op, opIdx a = opIdx b → a = b := by
  decide

theorem mem_allOps (op : grpc_ioreq_op) : op ∈ allOps := by
  cases op <;> simp [allOps]

theorem and_shift_ne_zero (m k : Nat) :
    (m &&& (1 <<< k) ≠ 0) ↔ m.testBit k := by
  have hpow : (1 : Nat) <<< k = 2 ^ k := by
    simp [Nat.shiftLeft_eq]
  constructor
  · intro h
    by_contra hb
    apply h
    apply Nat.eq_of_testBit_eq
    intro i
    rw [Nat.testBit_and, Nat.zero_testBit, hpow]
    rcases eq_or_ne i k with rfl | hik
    · simp [Bool.eq_false_iff.mpr hb]
    · simp [Nat.testBit_two_pow_of_ne (Ne.symm hik)]
  · intro h hz
    have := congrArg (fun n => n.testBit k) hz
    simp only [Nat.testBit_and, Nat.zero_testBit, hpow] at this
    rw [Nat.testBit_two_pow_self, h] at this
    exact Bool.noConfusion this

/-- Each digit character of the decimal serialization decodes back to its
digit value. -/
theorem dchar_toNat (d : Nat) (hd : d < 10) :
    (Char.ofNat (48 + d)).toNat = 48 + d := by
  interval_cases d <;> decide

theorem foldl_digit_chars (l : List Nat) (hl : ∀ d ∈ l, d < 10) :
    ((l.reverse.map (fun d => Char.ofNat (48 + d))).foldl
      (fun a c => 10 * a + (c.toNat - 48)) 0) = Nat.ofDigits 10 l := by
  induction l with
  | nil => simp [Nat.ofDigits_nil]
  | cons d t ih =>
    have hd : d < 10 := hl d (by simp)
    have ht : ∀ x ∈ t, x < 10 := fun x hx => hl x (by simp [hx])
    simp only [List.reverse_cons, List.map_append, List.foldl_append,
      List.map_cons, List.map_nil, List.foldl_cons, List.foldl_nil,
      ih ht, Nat.ofDigits_cons, dchar_toNat d hd]
    omega

/-- Round trip of the decimal status serialization through the lenient
parse. -/
theorem parse_ltoa (S : Nat) :
    gpr_parse_bytes_to_uint32 (gpr_ltoa S) = some S := by
  rcases eq_or_ne S 0 with rfl | h0
  · decide
  · have hne : Nat.digits 10 S ≠ [] := Nat.digits_ne_nil_iff_ne_zero.mpr h0
    have hdata : (gpr_ltoa S).data =
        (Nat.digits 10 S).reverse.map (fun d => Char.ofNat (48 + d)) := by
      rw [gpr_ltoa, if_neg h0]
    rw [gpr_parse_bytes_to_uint32, hdata]
    rw [if_neg (by simp [hne]), if_pos, foldl_digit_chars _
      (fun d hd => Nat.digits_lt_base (by norm_num) hd),
      Nat.ofDigits_digits]
    rw [List.all_eq_true]
    intro c hc
    rcases List.mem_map.mp hc with ⟨d, hd, rfl⟩
    have hd10 : d < 10 :=
      Nat.digits_lt_base (by norm_num) (List.mem_reverse.mp hd)
    simp only [dchar_toNat d hd10, Bool.and_eq_true, decide_eq_true_eq]
    omega

/-- C9: serializing any status code S as decimal ASCII (as the send path
does with gpr_ltoa) and decoding it with decode_status yields S back, and
memoizes S + STATUS_OFFSET in the element's user-data cache so that decoding
the element again yields the same S; a metadata value that does not parse as
an unsigned integer decodes to GRPC_STATUS_UNKNOWN. -/
theorem c9_status_roundtrip (S : Nat) (k : String) (v : String)
    (hv : gpr_parse_bytes_to_uint32 v = none) :
    (decode_status ⟨k, gpr_ltoa S, none⟩).1 = S ∧
    (decode_status ⟨k, gpr_ltoa S, none⟩).2.user_data =
      some (S + STATUS_OFFSET) ∧
    (decode_status (decode_status ⟨k, gpr_ltoa S, none⟩).2).1 = S ∧
    (decode_status ⟨k, v, none⟩).1 = GRPC_STATUS_UNKNOWN := by
  refine ⟨?_, ?_, ?_, ?_⟩ <;>
    simp [decode_status, parse_ltoa, hv, STATUS_OFFSET]

theorem ws_le_top (a : write_state) : a ≤ .WRITE_STATE_WRITE_CLOSED := by
  cases a <;> decide

theorem rs_le_top (a : read_state) : a ≤ .READ_STATE_STREAM_CLOSED := by
  cases a <;> decide

theorem ws_le_refl (a : write_state) : a ≤ a := Nat.le_refl _

theorem rs_le_refl (a : read_state) : a ≤ a := Nat.le_refl _

theorem ws_le_trans {a b c : write_state} (h1 : a ≤ b) (h2 : b ≤ c) :
    a ≤ c := Nat.le_trans h1 h2

theorem rs_le_trans {a b c : read_state} (h1 : a ≤ b) (h2 : b ≤ c) :
    a ≤ c := Nat.le_trans h1 h2

/-- Fields fill_send_started leaves untouched, and monotonicity of the write
state across it. -/
theorem fill_send_started_frame (st : grpc_call) (op : grpc_transport_op) :
    (fill_send_started st op).1.status = st.status ∧
    (fill_send_started st op).1.executed_ops = st.executed_ops ∧
    (fill_send_started st op).1.read_state = st.read_state ∧
    (fill_send_started st op).1.incoming_queue = st.incoming_queue ∧
    (fill_send_started st op).1.reading_message = st.reading_message ∧
    (fill_send_started st op).1.incoming_message = st.incoming_message ∧
    (fill_send_started st op).1.incoming_message_length =
      st.incoming_message_length ∧
    (fill_send_started st op).1.is_client = st.is_client ∧
    (fill_send_started st op).1.request_set = st.request_set ∧
    (fill_send_started st op).1.masters = st.masters ∧
    (fill_send_started st op).1.completed_requests = st.completed_requests ∧
    st.write_state ≤ (fill_send_started st op).1.write_state := by
  unfold fill_send_started
  refine ⟨?_, ?_, ?_, ?_, ?_, ?_, ?_, ?_, ?_, ?_, ?_, ?_⟩ <;>
    (dsimp only; split_ifs) <;>
    first | rfl | exact ws_le_refl _ | exact ws_le_top _

/-- Fields fill_send_ops leaves untouched. -/
theorem fill_send_ops_frame (st : grpc_call) (op : grpc_transport_op) :
    (fill_send_ops st op).1.status = st.status ∧
    (fill_send_ops st op).1.executed_ops = st.executed_ops ∧
    (fill_send_ops st op).1.read_state = st.read_state ∧
    (fill_send_ops st op).1.incoming_queue = st.incoming_queue ∧
    (fill_send_ops st op).1.reading_message = st.reading_message ∧
    (fill_send_ops st op).1.incoming_message = st.incoming_message ∧
    (fill_send_ops st op).1.incoming_message_length =
      st.incoming_message_length ∧
    (fill_send_ops st op).1.is_client = st.is_client ∧
    (fill_send_ops st op).1.request_set = st.request_set ∧
    (fill_send_ops st op).1.masters = st.masters ∧
    (fill_send_ops st op).1.completed_requests = st.completed_requests := by
  unfold fill_send_ops
  refine ⟨?_, ?_, ?_, ?_, ?_, ?_, ?_, ?_, ?_, ?_, ?_⟩ <;>
    (split <;> dsimp only <;> (try split_ifs)) <;>
    first
      | rfl
      | (rw [(fill_send_started_frame _ _).1])
      | (rw [(fill_send_started_frame _ _).2.1])
      | (rw [(fill_send_started_frame _ _).2.2.1])
      | (rw [(fill_send_started_frame _ _).2.2.2.1])
      | (rw [(fill_send_started_frame _ _).2.2.2.2.1])
      | (rw [(fill_send_started_frame _ _).2.2.2.2.2.1])
      | (rw [(fill_send_started_frame _ _).2.2.2.2.2.2.1])
      | (rw [(fill_send_started_frame _ _).2.2.2.2.2.2.2.1])
      | (rw [(fill_send_started_frame _ _).2.2.2.2.2.2.2.2.1])
      | (rw [(fill_send_started_frame _ _).2.2.2.2.2.2.2.2.2.1])
      | (rw [(fill_send_started_frame _ _).2.2.2.2.2.2.2.2.2.2.1])
      | simp_all

/-- The write state never moves backwards across fill_send_ops. -/
theorem fill_send_ops_ws_mono (st : grpc_call) (op : grpc_transport_op) :
    st.write_state ≤ (fill_send_ops st op).1.write_state := by
  unfold fill_send_ops
  split
  · rename_i heq
    rw [heq]
    dsimp only
    split_ifs <;> exact Nat.zero_le _
  · dsimp only
    split_ifs <;>
      first
        | exact (fill_send_started_frame _ _).2.2.2.2.2.2.2.2.2.2.2
        | exact ws_le_refl _
        | simp_all
  · dsimp only
    split_ifs <;>
      first
        | exact ws_le_refl _
        | simp_all

set_option maxHeartbeats 2000000 in
/-- Fields one unlock pass leaves untouched. -/
theorem unlock_once_frame (st : grpc_call) :
    (unlock_once st).1.status = st.status ∧
    (unlock_once st).1.read_state = st.read_state ∧
    (unlock_once st).1.incoming_queue = st.incoming_queue ∧
    (unlock_once st).1.reading_message = st.reading_message ∧
    (unlock_once st).1.incoming_message = st.incoming_message ∧
    (unlock_once st).1.incoming_message_length = st.incoming_message_length ∧
    (unlock_once st).1.is_client = st.is_client ∧
    (unlock_once st).1.request_set = st.request_set ∧
    (unlock_once st).1.masters = st.masters := by
  unfold unlock_once unlock_prep execute_op
  refine ⟨?_, ?_, ?_, ?_, ?_, ?_, ?_, ?_, ?_⟩ <;>
    (dsimp only; split_ifs) <;> (try dsimp only) <;>
    first
      | (rw [(fill_send_ops_frame _ _).1])
      | (rw [(fill_send_ops_frame _ _).2.1])
      | (rw [(fill_send_ops_frame _ _).2.2.1])
      | (rw [(fill_send_ops_frame _ _).2.2.2.1])
      | (rw [(fill_send_ops_frame _ _).2.2.2.2.1])
      | (rw [(fill_send_ops_frame _ _).2.2.2.2.2.1])
      | (rw [(fill_send_ops_frame _ _).2.2.2.2.2.2.1])
      | (rw [(fill_send_ops_frame _ _).2.2.2.2.2.2.2.1])
      | (rw [(fill_send_ops_frame _ _).2.2.2.2.2.2.2.2.1])
      | (rw [(fill_send_ops_frame _ _).2.2.2.2.2.2.2.2.2.1])
      | (rw [(fill_send_ops_frame _ _).2.2.2.2.2.2.2.2.2.2.1])
      | rfl
      | simp_all

/-- Variant of fill_send_ops_ws_mono stated against any state sharing the
same write state, for use where other fields differ. -/
theorem fill_send_ops_ws_mono2 (st st2 : grpc_call) (op : grpc_transport_op)
    (h : st.write_state = st2.write_state) :
    st.write_state ≤ (fill_send_ops st2 op).1.write_state := by
  rw [h]
  exact fill_send_ops_ws_mono st2 op

set_option maxHeartbeats 2000000 in
/-- The write state never moves backwards across one unlock pass. -/
theorem unlock_once_ws_mono (st : grpc_call) :
    st.write_state ≤ (unlock_once st).1.write_state := by
  unfold unlock_once unlock_prep execute_op
  dsimp only
  split_ifs <;> (try dsimp only) <;>
    first
      | exact ws_le_refl _
      | exact fill_send_ops_ws_mono2 _ _ _ rfl

/-- Fields unlock leaves untouched, and monotonicity of the write state
across it. -/
theorem unlock_frame (st : grpc_call) :
    (unlock st).status = st.status ∧
    (unlock st).read_state = st.read_state ∧
    (unlock st).incoming_queue = st.incoming_queue ∧
    (unlock st).reading_message = st.reading_message ∧
    (unlock st).incoming_message = st.incoming_message ∧
    (unlock st).incoming_message_length = st.incoming_message_length ∧
    (unlock st).is_client = st.is_client ∧
    (unlock st).request_set = st.request_set ∧
    (unlock st).masters = st.masters ∧
    st.write_state ≤ (unlock st).write_state := by
  unfold unlock
  dsimp only
  split_ifs with h
  · exact ⟨(unlock_once_frame st).1, (unlock_once_frame st).2.1,
      (unlock_once_frame st).2.2.1, (unlock_once_frame st).2.2.2.1,
      (unlock_once_frame st).2.2.2.2.1, (unlock_once_frame st).2.2.2.2.2.1,
      (unlock_once_frame st).2.2.2.2.2.2.1,
      (unlock_once_frame st).2.2.2.2.2.2.2.1,
      (unlock_once_frame st).2.2.2.2.2.2.2.2, unlock_once_ws_mono st⟩
  · have h1 := unlock_once_frame st
    rcases h1 with ⟨a1, a2, a3, a4, a5, a6, a7, a8, a9⟩
    have ha10 := unlock_once_ws_mono st
    have h2 := unlock_once_frame
      { (unlock_once st).1 with
        delivered_completions :=
          (unlock_once st).1.delivered_completions ++ (unlock_once st).2,
        completing := false }
    rcases h2 with ⟨b1, b2, b3, b4, b5, b6, b7, b8, b9⟩
    have hb10 := unlock_once_ws_mono
      { (unlock_once st).1 with
        delivered_completions :=
          (unlock_once st).1.delivered_completions ++ (unlock_once st).2,
        completing := false }
    simp only at b1 b2 b3 b4 b5 b6 b7 b8 b9 hb10
    exact ⟨by rw [b1, a1], by rw [b2, a2], by rw [b3, a3], by rw [b4, a4],
      by rw [b5, a5], by rw [b6, a6], by rw [b7, a7], by rw [b8, a8],
      by rw [b9, a9], ws_le_trans ha10 hb10⟩

/-- The status array after set_status_code: the source record gains is_set
and the code, keeping its details. -/
theorem set_status_code_status (st : grpc_call) (src : status_source)
    (code : Nat) :
    (set_status_code st src code).status = Function.update st.status src
      { is_set := true, code := code, details := (st.status src).details } := by
  unfold set_status_code
  dsimp only
  split_ifs <;> rfl

/-- Fields set_status_code leaves untouched. -/
theorem set_status_code_frame (st : grpc_call) (src : status_source)
    (code : Nat) :
    (set_status_code st src code).read_state = st.read_state ∧
    (set_status_code st src code).write_state = st.write_state ∧
    (set_status_code st src code).executed_ops = st.executed_ops ∧
    (set_status_code st src code).reading_message = st.reading_message ∧
    (set_status_code st src code).incoming_message = st.incoming_message ∧
    (set_status_code st src code).incoming_message_length =
      st.incoming_message_length ∧
    (set_status_code st src code).is_client = st.is_client ∧
    (set_status_code st src code).request_set = st.request_set ∧
    (set_status_code st src code).masters = st.masters := by
  unfold set_status_code
  dsimp only
  split_ifs <;> simp

/-- grpc_call_cancel_with_status: returns GRPC_CALL_OK, records the code and
detail string under API_OVERRIDE, and the last transport op handed to the
stack is the cancel op carrying the code; stream-reading state is
untouched. -/
theorem cancel_with_status_spec (st : grpc_call) (code : Nat)
    (desc : Option String) :
    (grpc_call_cancel_with_status st code desc).1 = .GRPC_CALL_OK ∧
    (grpc_call_cancel_with_status st code desc).2.status
      .STATUS_FROM_API_OVERRIDE =
      { is_set := true, code := code, details := desc } ∧
    (∃ pre, (grpc_call_cancel_with_status st code desc).2.executed_ops =
      pre ++ [{ cancel_with_status := code }]) ∧
    (grpc_call_cancel_with_status st code desc).2.read_state =
      st.read_state ∧
    st.write_state ≤
      (grpc_call_cancel_with_status st code desc).2.write_state ∧
    (grpc_call_cancel_with_status st code desc).2.reading_message =
      st.reading_message ∧
    (grpc_call_cancel_with_status st code desc).2.incoming_message =
      st.incoming_message ∧
    (grpc_call_cancel_with_status st code desc).2.incoming_message_length =
      st.incoming_message_length ∧
    (grpc_call_cancel_with_status st code desc).2.is_client =
      st.is_client := by
  unfold grpc_call_cancel_with_status
  dsimp only
  set st1 := set_status_code st .STATUS_FROM_API_OVERRIDE code with hst1
  set st2 := set_status_details st1 .STATUS_FROM_API_OVERRIDE desc with hst2
  have hu := unlock_frame st2
  have hc1 := set_status_code_frame st .STATUS_FROM_API_OVERRIDE code
  have hst2status : st2.status .STATUS_FROM_API_OVERRIDE =
      { is_set := true, code := code, details := desc } := by
    rw [hst2]
    unfold set_status_details
    simp only [Function.update_same]
    rw [hst1, set_status_code_status]
    simp [Function.update_same]
  have hst2frame : st2.read_state = st.read_state ∧
      st2.write_state = st.write_state ∧
      st2.reading_message = st.reading_message ∧
      st2.incoming_message = st.incoming_message ∧
      st2.incoming_message_length = st.incoming_message_length ∧
      st2.is_client = st.is_client := by
    rw [hst2]
    unfold set_status_details
    simp only
    exact ⟨hc1.1, hc1.2.1, hc1.2.2.2.1, hc1.2.2.2.2.1, hc1.2.2.2.2.2.1,
      hc1.2.2.2.2.2.2.1⟩
  refine ⟨rfl, ?_, ⟨(unlock st2).executed_ops, by simp [execute_op]⟩,
    ?_, ?_, ?_, ?_, ?_, ?_⟩
  · show (unlock st2).status .STATUS_FROM_API_OVERRIDE = _
    rw [hu.1, hst2status]
  · show (unlock st2).read_state = _
    rw [hu.2.1, hst2frame.1]
  · show st.write_state ≤ (unlock st2).write_state
    rw [← hst2frame.2.1]
    exact hu.2.2.2.2.2.2.2.2.2
  · show (unlock st2).reading_message = _
    rw [hu.2.2.2.1, hst2frame.2.2.1]
  · show (unlock st2).incoming_message = _
    rw [hu.2.2.2.2.1, hst2frame.2.2.2.1]
  · show (unlock st2).incoming_message_length = _
    rw [hu.2.2.2.2.2.1, hst2frame.2.2.2.2.1]
  · show (unlock st2).is_client = _
    rw [hu.2.2.2.2.2.2.1, hst2frame.2.2.2.2.2]

/-- C10: grpc_call_cancel is grpc_call_cancel_with_status at
GRPC_STATUS_CANCELLED with description "Cancelled": it sets that
API_OVERRIDE status record, the cancel transport op it dispatches carries
GRPC_STATUS_CANCELLED, and it returns GRPC_CALL_OK. -/
theorem c10_cancel_refines_cancel_with_status (st : grpc_call) :
    grpc_call_cancel st =
      grpc_call_cancel_with_status st GRPC_STATUS_CANCELLED
        (some "Cancelled") ∧
    (grpc_call_cancel st).1 = .GRPC_CALL_OK ∧
    (grpc_call_cancel st).2.status .STATUS_FROM_API_OVERRIDE =
      { is_set := true, code := GRPC_STATUS_CANCELLED,
        details := some "Cancelled" } ∧
    ∃ pre, (grpc_call_cancel st).2.executed_ops =
      pre ++ [{ cancel_with_status := GRPC_STATUS_CANCELLED }] := by
  have h := cancel_with_status_spec st GRPC_STATUS_CANCELLED
    (some "Cancelled")
  exact ⟨rfl, h.1, h.2.1, h.2.2.1⟩

/-- C6 (amended): get_final_details delivers the detail string of the first
source in priority order whose is_set flag is true; when that source has no
details, or no source is set, it delivers the empty string.  The buffer
capacity afterwards always holds the string plus its NUL terminator. -/
theorem c6_details_first_set_source (st : grpc_call) (capacity : Nat) :
    ((get_final_details st capacity).1 =
      (if (st.status .STATUS_FROM_API_OVERRIDE).is_set then
        ((st.status .STATUS_FROM_API_OVERRIDE).details).getD ""
       else if (st.status .STATUS_FROM_CORE).is_set then
        ((st.status .STATUS_FROM_CORE).details).getD ""
       else if (st.status .STATUS_FROM_WIRE).is_set then
        ((st.status .STATUS_FROM_WIRE).details).getD ""
       else "")) ∧
    (get_final_details st capacity).1.length + 1 ≤
      (get_final_details st capacity).2 := by
  unfold get_final_details deliver_details deliver_no_details
  split_ifs <;> (try split) <;> (try split_ifs) <;> simp_all <;> omega

/-- C6 counterexample: a call whose API_OVERRIDE status is set without
details (cancel with a NULL description) while the WIRE source carries the
detail string "boom" (from a grpc-message metadata element).  The claim
says the first source with a detail string wins, so it predicts "boom";
get_final_details walks by is_set and delivers the empty string. -/
theorem c6_claim_counterexample :
    spec_first_details
      (recv_metadata
        ((grpc_call_cancel_with_status (grpc_call_create true 1000 [] none)
          5 none).2)
        ⟨[⟨"grpc-message", "boom", none⟩], none⟩) = some "boom" ∧
    (get_final_details
      (recv_metadata
        ((grpc_call_cancel_with_status (grpc_call_create true 1000 [] none)
          5 none).2)
        ⟨[⟨"grpc-message", "boom", none⟩], none⟩) 0).1 = "" ∧
    ("" : String) ≠ "boom" := by
  refine ⟨by decide, by decide, by decide⟩

/-- C5 (amended): need_more_data holds iff one of the five always-counted
recv-class ioreqs is live, or RECV_CLOSE is live while the inbound message
queue is empty, or the call is a server with write state INITIAL whose read
state is not STREAM_CLOSED. -/
theorem c5_need_more_data_characterization (st : grpc_call) :
    need_more_data st = true ↔
      (is_op_live st .RECV_INITIAL_METADATA = true ∨
       is_op_live st .RECV_MESSAGE = true ∨
       is_op_live st .RECV_TRAILING_METADATA = true ∨
       is_op_live st .RECV_STATUS = true ∨
       is_op_live st .RECV_STATUS_DETAILS = true ∨
       (is_op_live st .RECV_CLOSE = true ∧ st.incoming_queue = []) ∨
       (st.write_state = .WRITE_STATE_INITIAL ∧ st.is_client = false ∧
        st.read_state ≠ .READ_STATE_STREAM_CLOSED)) := by
  unfold need_more_data
  simp [List.isEmpty_iff, and_assoc, or_assoc]

/-- C5 counterexample: a client call whose RECV_CLOSE ioreq is live while a
zero-length message sits in the inbound queue.  The claim counts any live
recv-class ioreq, including RECV_CLOSE, so it predicts true; need_more_data
requires the queue to be empty for RECV_CLOSE and returns false. -/
theorem c5_claim_counterexample :
    need_more_data
      ((begin_message
        ((start_ioreq (grpc_call_create true 1000 [] none)
          [⟨.RECV_CLOSE, {}⟩] 0 0).2) 0).2) = false ∧
    is_op_live
      ((begin_message
        ((start_ioreq (grpc_call_create true 1000 [] none)
          [⟨.RECV_CLOSE, {}⟩] 0 0).2) 0).2) .RECV_CLOSE = true := by
  refine ⟨by decide, by decide⟩

/-- The per-source status record after a sequence of set_status_code calls:
the last event for the source wins; with no event for it the record is
unchanged.  Details are never touched by set_status_code. -/
theorem run_sets_status (events : List (status_source × Nat))
    (st : grpc_call) (s : status_source) :
    (run_sets st events).status s =
      match (events.filter (fun e => decide (e.1 = s))).getLast? with
      | some e =>
          { is_set := true, code := e.2, details := (st.status s).details }
      | none => st.status s := by
  induction events generalizing st with
  | nil => simp [run_sets]
  | cons e t ih =>
    have hstep : run_sets st (e :: t) =
        run_sets (set_status_code st e.1 e.2) t := by
      simp [run_sets]
    rw [hstep, ih]
    by_cases he : e.1 = s
    · subst he
      rw [List.filter_cons_of_pos (by simp)]
      cases hft : t.filter (fun x => decide (x.1 = e.1)) with
      | nil =>
          simp only [hft, List.getLast?_singleton]
          rw [set_status_code_status]
          simp [Function.update_same]
      | cons x xs =>
          simp only [hft, List.getLast?_cons_cons]
          rw [set_status_code_status]
          cases hxs : (x :: xs).getLast? with
          | none => simp at hxs
          | some l =>
              simp [Function.update_same]
    · rw [List.filter_cons_of_neg (by simp [he])]
      rw [set_status_code_status]
      cases (t.filter (fun x => decide (x.1 = s))).getLast? with
      | none => simp [Function.update_noteq (Ne.symm he)]
      | some l => simp [Function.update_noteq (Ne.symm he)]

/-- C2: after any sequence of set_status_code calls on a fresh call,
get_final_status delivers the code of the lowest-numbered source that was
set (the last code written to it), independently of the order in which the
sources were set; with no source set it delivers GRPC_STATUS_UNKNOWN for a
client and GRPC_STATUS_OK for a server. -/
theorem c2_final_status_priority (is_client : Bool) (maxlen : Nat)
    (md : List (String × String)) (deadline : Option Nat)
    (events : List (status_source × Nat)) :
    get_final_status
        (run_sets (grpc_call_create is_client maxlen md deadline) events) =
      match (events.filter
          (fun e => decide (e.1 = .STATUS_FROM_API_OVERRIDE))).getLast? with
      | some e => e.2
      | none =>
        match (events.filter
            (fun e => decide (e.1 = .STATUS_FROM_CORE))).getLast? with
        | some e => e.2
        | none =>
          match (events.filter
              (fun e => decide (e.1 = .STATUS_FROM_WIRE))).getLast? with
          | some e => e.2
          | none =>
              if is_client then GRPC_STATUS_UNKNOWN else GRPC_STATUS_OK := by
  unfold get_final_status
  rw [run_sets_status, run_sets_status, run_sets_status]
  have hic : (run_sets (grpc_call_create is_client maxlen md deadline)
      events).is_client = is_client := by
    have : ∀ evs st, (run_sets st evs).is_client = st.is_client := by
      intro evs
      induction evs with
      | nil => intro st; simp [run_sets]
      | cons e t ih =>
          intro st
          have hstep : run_sets st (e :: t) =
              run_sets (set_status_code st e.1 e.2) t := by
            simp [run_sets]
          rw [hstep, ih, (set_status_code_frame st e.1 e.2).2.2.2.2.2.2.1]
    rw [this]
    rfl
  rw [hic]
  cases (events.filter
      (fun e => decide (e.1 = .STATUS_FROM_API_OVERRIDE))).getLast? with
  | some e => simp [grpc_call_create]
  | none =>
    cases (events.filter
        (fun e => decide (e.1 = .STATUS_FROM_CORE))).getLast? with
    | some e => simp [grpc_call_create]
    | none =>
      cases (events.filter
          (fun e => decide (e.1 = .STATUS_FROM_WIRE))).getLast? with
      | some e => simp [grpc_call_create]
      | none => simp [grpc_call_create]

theorem shift_testBit (k j : Nat) : (1 <<< k).testBit j = decide (j = k) := by
  have h2 : (1 : Nat) <<< k = 2 ^ k := by simp [Nat.shiftLeft_eq]
  rw [h2]
  rcases eq_or_ne j k with rfl | h
  · simp [Nat.testBit_two_pow_self]
  · simp [Nat.testBit_two_pow_of_ne (Ne.symm h), h]

theorem or_shift_ne_zero (h k j : Nat) :
    ((h ||| (1 <<< k)) &&& (1 <<< j) ≠ 0) ↔
      ((h &&& (1 <<< j) ≠ 0) ∨ j = k) := by
  rw [and_shift_ne_zero, and_shift_ne_zero, Nat.testBit_or, shift_testBit]
  simp [Bool.or_eq_true, decide_eq_true_eq]

/-- Rollback correctness of the start_ioreq validation loop: when the loop
fails, start_ioreq_error resets exactly the slots recorded in have_ops, all
of which were REQSET_EMPTY before the call, so request_set is exactly the
pre-call array st0.request_set. -/
theorem start_ioreq_loop_error_request_set (opset : grpc_ioreq_op)
    (reqs : List grpc_ioreq) :
    ∀ (have_ops : Nat) (st st0 : grpc_call),
    (∀ i, (have_ops &&& (1 <<< opIdx i) ≠ 0) → st0.request_set i = .EMPTY) →
    (∀ i, ¬(have_ops &&& (1 <<< opIdx i) ≠ 0) →
      st.request_set i = st0.request_set i) →
    (start_ioreq_loop opset reqs have_ops st).1 ≠ .GRPC_CALL_OK →
    (start_ioreq_loop opset reqs have_ops st).2.1.request_set =
      st0.request_set := by
  induction reqs with
  | nil =>
      intro have_ops st st0 _ _ hne
      simp [start_ioreq_loop] at hne
  | cons r rest ih =>
      intro have_ops st st0 h1 h2 hne
      rw [start_ioreq_loop] at hne ⊢
      cases hslot : st.request_set r.op with
      | group g =>
          rw [hslot] at hne
          dsimp only at hne ⊢
          dsimp only [start_ioreq_error]
          funext i
          by_cases hb : have_ops &&& (1 <<< opIdx i) ≠ 0
          · simp only [if_pos hb]
            exact (h1 i hb).symm
          · simp only [if_neg hb]
            exact h2 i hb
      | DONE =>
          rw [hslot] at hne
          dsimp only at hne ⊢
          dsimp only [start_ioreq_error]
          funext i
          by_cases hb : have_ops &&& (1 <<< opIdx i) ≠ 0
          · simp only [if_pos hb]
            exact (h1 i hb).symm
          · simp only [if_neg hb]
            exact h2 i hb
      | EMPTY =>
          rw [hslot] at hne
          dsimp only at hne ⊢
          refine ih _ _ st0 ?_ ?_ hne
          · intro i hb
            rcases (or_shift_ne_zero have_ops (opIdx r.op) (opIdx i)).mp hb
              with hb' | heq
            · exact h1 i hb'
            · have hieq : i = r.op := opIdx_inj _ _ heq
              by_cases hb2 : have_ops &&& (1 <<< opIdx i) ≠ 0
              · exact h1 i hb2
              · rw [← h2 i hb2, hieq]
                exact hslot
          · intro i hb
            have hb' : ¬(have_ops &&& (1 <<< opIdx i) ≠ 0) := by
              intro hx
              exact hb ((or_shift_ne_zero have_ops (opIdx r.op)
                (opIdx i)).mpr (Or.inl hx))
            have hne2 : i ≠ r.op := by
              intro hx
              exact hb ((or_shift_ne_zero have_ops (opIdx r.op)
                (opIdx i)).mpr (Or.inr (by rw [hx])))
            show (upd_request_set (upd_request_data st r.op _) r.op
              (.group opset)).request_set i = st0.request_set i
            rw [← h2 i hb']
            simp [upd_request_set, upd_request_data,
              Function.update_noteq hne2]

/-- When the start_ioreq validation loop succeeds, every requested slot was
REQSET_EMPTY beforehand and the batch contained no op type twice. -/
theorem start_ioreq_loop_ok (opset : grpc_ioreq_op)
    (reqs : List grpc_ioreq) :
    ∀ (have_ops : Nat) (st : grpc_call),
    (start_ioreq_loop opset reqs have_ops st).1 = .GRPC_CALL_OK →
    (∀ r ∈ reqs, st.request_set r.op = .EMPTY) ∧
    (reqs.map (fun r => r.op)).Nodup := by
  induction reqs with
  | nil => intro have_ops st _; simp
  | cons r rest ih =>
      intro have_ops st hok
      rw [start_ioreq_loop] at hok
      cases hslot : st.request_set r.op with
      | group g => rw [hslot] at hok; simp [start_ioreq_error] at hok
      | DONE => rw [hslot] at hok; simp [start_ioreq_error] at hok
      | EMPTY =>
          rw [hslot] at hok
          dsimp only at hok
          have hrec := ih _ _ hok
          have hne : ∀ r2 ∈ rest, r2.op ≠ r.op := by
            intro r2 hr2 hx
            have := hrec.1 r2 hr2
            rw [hx] at this
            simp [upd_request_set, upd_request_data,
              Function.update_same] at this
          refine ⟨?_, ?_⟩
          · intro r2 hr2
            rcases List.mem_cons.mp hr2 with rfl | hr2'
            · exact hslot
            · have := hrec.1 r2 hr2'
              rw [upd_request_set, upd_request_data] at this
              simp only [Function.update] at this
              by_cases hx : r2.op = r.op
              · exact absurd hx (hne r2 hr2')
              · simpa [hx] using this
          · rw [List.map_cons, List.nodup_cons]
            refine ⟨?_, hrec.2⟩
            intro hmem
            rcases List.mem_map.mp hmem with ⟨r2, hr2, hx⟩
            exact hne r2 hr2 hx

/-- The validation loop returns one of OK, TOO_MANY_OPERATIONS and
ALREADY_INVOKED. -/
theorem start_ioreq_loop_result (opset : grpc_ioreq_op)
    (reqs : List grpc_ioreq) :
    ∀ (have_ops : Nat) (st : grpc_call),
    (start_ioreq_loop opset reqs have_ops st).1 = .GRPC_CALL_OK ∨
    (start_ioreq_loop opset reqs have_ops st).1 =
      .GRPC_CALL_ERROR_TOO_MANY_OPERATIONS ∨
    (start_ioreq_loop opset reqs have_ops st).1 =
      .GRPC_CALL_ERROR_ALREADY_INVOKED := by
  induction reqs with
  | nil => intro have_ops st; simp [start_ioreq_loop]
  | cons r rest ih =>
      intro have_ops st
      rw [start_ioreq_loop]
      cases st.request_set r.op with
      | group g => simp [start_ioreq_error]
      | DONE => simp [start_ioreq_error]
      | EMPTY => exact ih _ _

/-- If every requested slot is EMPTY or DONE, the batch has no duplicate op
types, and some requested slot is DONE, the validation loop reports
ALREADY_INVOKED. -/
theorem start_ioreq_loop_done_hit (opset : grpc_ioreq_op)
    (reqs : List grpc_ioreq) :
    ∀ (have_ops : Nat) (st : grpc_call),
    (reqs.map (fun r => r.op)).Nodup →
    (∀ r ∈ reqs, st.request_set r.op = .EMPTY ∨
      st.request_set r.op = .DONE) →
    (∃ r ∈ reqs, st.request_set r.op = .DONE) →
    (start_ioreq_loop opset reqs have_ops st).1 =
      .GRPC_CALL_ERROR_ALREADY_INVOKED := by
  induction reqs with
  | nil => intro have_ops st _ _ hex; simp at hex
  | cons r rest ih =>
      intro have_ops st hnd hall hex
      rw [start_ioreq_loop]
      cases hslot : st.request_set r.op with
      | group g =>
          rcases hall r (by simp) with h | h <;> rw [hslot] at h <;>
            exact absurd h (by simp)
      | DONE => simp [start_ioreq_error]
      | EMPTY =>
          have hnotr : ∀ r2 ∈ rest, r2.op ≠ r.op := by
            intro r2 hr2 hx
            rw [List.map_cons, List.nodup_cons] at hnd
            exact hnd.1 (List.mem_map.mpr ⟨r2, hr2, hx⟩)
          refine ih _ _ ?_ ?_ ?_
          · rw [List.map_cons, List.nodup_cons] at hnd
            exact hnd.2
          · intro r2 hr2
            have hthis := hall r2 (by simp [hr2])
            simp only [upd_request_set, upd_request_data,
              Function.update_noteq (hnotr r2 hr2)]
            exact hthis
          · rcases hex with ⟨r2, hr2, hd⟩
            rcases List.mem_cons.mp hr2 with rfl | hr2'
            · rw [hslot] at hd; exact absurd hd (by simp)
            · refine ⟨r2, hr2', ?_⟩
              rw [upd_request_set, upd_request_data]
              simpa [Function.update_noteq (hnotr r2 hr2')] using hd

/-- C4 (amended): a start_ioreq batch that references an occupied slot (a
group index) or repeats an op type fails validation: it returns
TOO_MANY_OPERATIONS when the first failure is an occupied slot, or
ALREADY_INVOKED when a retired DONE slot is hit first, and in either case
every slot mutated earlier in that call is rolled back to EMPTY, leaving
request_set exactly as before the call. -/
theorem c4_start_ioreq_occupied_rollback (st : grpc_call)
    (reqs : List grpc_ioreq) (completion user_data : Nat)
    (h : (∃ r ∈ reqs, ∃ g, st.request_set r.op = .group g) ∨
         ¬(reqs.map (fun r => r.op)).Nodup) :
    ((start_ioreq st reqs completion user_data).1 =
        .GRPC_CALL_ERROR_TOO_MANY_OPERATIONS ∨
     (start_ioreq st reqs completion user_data).1 =
        .GRPC_CALL_ERROR_ALREADY_INVOKED) ∧
    (start_ioreq st reqs completion user_data).2.request_set =
      st.request_set := by
  cases reqs with
  | nil => simp at h
  | cons r0 rest =>
      have hnotok : (start_ioreq_loop r0.op (r0 :: rest) 0 st).1 ≠
          .GRPC_CALL_OK := by
        intro hok
        have hk := start_ioreq_loop_ok r0.op (r0 :: rest) 0 st hok
        rcases h with ⟨r, hr, g, hg⟩ | hnd
        · rw [hk.1 r hr] at hg; exact reqset.noConfusion hg
        · exact hnd hk.2
      have hrs := start_ioreq_loop_error_request_set r0.op (r0 :: rest) 0
        st st (by intro i hb; simp [Nat.zero_and] at hb)
        (by intro i _; rfl) hnotok
      rcases start_ioreq_loop_result r0.op (r0 :: rest) 0 st with
        hok | herr | herr
      · exact absurd hok hnotok
      · constructor
        · left
          rw [start_ioreq]
          rcases hl : start_ioreq_loop r0.op (r0 :: rest) 0 st with
            ⟨e, stl, hv⟩
          rw [hl] at herr
          simp only at herr
          subst herr
          rfl
        · rw [start_ioreq]
          rcases hl : start_ioreq_loop r0.op (r0 :: rest) 0 st with
            ⟨e, stl, hv⟩
          rw [hl] at herr hrs
          simp only at herr hrs
          subst herr
          exact hrs
      · constructor
        · right
          rw [start_ioreq]
          rcases hl : start_ioreq_loop r0.op (r0 :: rest) 0 st with
            ⟨e, stl, hv⟩
          rw [hl] at herr
          simp only at herr
          subst herr
          rfl
        · rw [start_ioreq]
          rcases hl : start_ioreq_loop r0.op (r0 :: rest) 0 st with
            ⟨e, stl, hv⟩
          rw [hl] at herr hrs
          simp only at herr hrs
          subst herr
          exact hrs

/-- Witness for C4: a fresh server call given the duplicate batch
SEND_MESSAGE, SEND_MESSAGE fails with TOO_MANY_OPERATIONS and leaves
request_set unchanged. -/
theorem c4_start_ioreq_occupied_rollback_witness :
    ((start_ioreq (grpc_call_create false 1000 [] none)
        [⟨.SEND_MESSAGE, {}⟩, ⟨.SEND_MESSAGE, {}⟩] 0 0).1 =
        .GRPC_CALL_ERROR_TOO_MANY_OPERATIONS ∨
     (start_ioreq (grpc_call_create false 1000 [] none)
        [⟨.SEND_MESSAGE, {}⟩, ⟨.SEND_MESSAGE, {}⟩] 0 0).1 =
        .GRPC_CALL_ERROR_ALREADY_INVOKED) ∧
    (start_ioreq (grpc_call_create false 1000 [] none)
        [⟨.SEND_MESSAGE, {}⟩, ⟨.SEND_MESSAGE, {}⟩] 0 0).2.request_set =
      (grpc_call_create false 1000 [] none).request_set :=
  c4_start_ioreq_occupied_rollback (grpc_call_create false 1000 [] none)
    [⟨.SEND_MESSAGE, {}⟩, ⟨.SEND_MESSAGE, {}⟩] 0 0 (Or.inr (by decide))

/-- C4 counterexample: on a fresh client call the batch SEND_STATUS,
SEND_MESSAGE, SEND_MESSAGE repeats an op type, so the claim demands
TOO_MANY_OPERATIONS; validation hits the client's retired SEND_STATUS slot
first and returns ALREADY_INVOKED. -/
theorem c4_claim_counterexample :
    (start_ioreq (grpc_call_create true 1000 [] none)
      [⟨.SEND_STATUS, {}⟩, ⟨.SEND_MESSAGE, {}⟩, ⟨.SEND_MESSAGE, {}⟩]
      0 0).1 = .GRPC_CALL_ERROR_ALREADY_INVOKED ∧
    grpc_call_error.GRPC_CALL_ERROR_ALREADY_INVOKED ≠
      .GRPC_CALL_ERROR_TOO_MANY_OPERATIONS :=
  ⟨by decide, by decide⟩

/-- C7 (amended): a client call fresh from grpc_call_create has its
SEND_TRAILING_METADATA and SEND_STATUS slots initialized to DONE and all
other slots EMPTY (a fresh server call has every slot EMPTY), so a direct
start_ioreq batch with pairwise-distinct op types containing either of
those ops on a client returns GRPC_CALL_ERROR_ALREADY_INVOKED rather than a
role error.  (A batch that also repeats some op type can instead hit
TOO_MANY_OPERATIONS first, which is the one correction to the claim.) -/
theorem c7_client_fresh_slots (maxlen : Nat) (md : List (String × String))
    (deadline : Option Nat) (reqs : List grpc_ioreq)
    (completion user_data : Nat)
    (hnodup : (reqs.map (fun r => r.op)).Nodup)
    (hcontains : ∃ r ∈ reqs, r.op = .SEND_TRAILING_METADATA ∨
      r.op = .SEND_STATUS) :
    (grpc_call_create true maxlen md deadline).request_set
      .SEND_TRAILING_METADATA = .DONE ∧
    (grpc_call_create true maxlen md deadline).request_set
      .SEND_STATUS = .DONE ∧
    (∀ op, op ≠ .SEND_TRAILING_METADATA → op ≠ .SEND_STATUS →
      (grpc_call_create true maxlen md deadline).request_set op = .EMPTY) ∧
    (∀ op, (grpc_call_create false maxlen md deadline).request_set op =
      .EMPTY) ∧
    (start_ioreq (grpc_call_create true maxlen md deadline) reqs
      completion user_data).1 = .GRPC_CALL_ERROR_ALREADY_INVOKED := by
  refine ⟨by simp [grpc_call_create], by simp [grpc_call_create],
    ?_, ?_, ?_⟩
  · intro op h1 h2
    simp [grpc_call_create, h1, h2]
  · intro op
    simp [grpc_call_create]
  · cases reqs with
    | nil => simp at hcontains
    | cons r0 rest =>
        rw [start_ioreq]
        have hloop := start_ioreq_loop_done_hit r0.op (r0 :: rest) 0
          (grpc_call_create true maxlen md deadline) hnodup
          (by
            intro r _
            by_cases hx : r.op = .SEND_TRAILING_METADATA ∨
                r.op = .SEND_STATUS
            · right
              rcases hx with hx | hx <;> simp [grpc_call_create, hx]
            · left
              push_neg at hx
              simp [grpc_call_create, hx.1, hx.2])
          (by
            rcases hcontains with ⟨r, hr, hx⟩
            refine ⟨r, hr, ?_⟩
            rcases hx with hx | hx <;> simp [grpc_call_create, hx])
        rcases hl : start_ioreq_loop r0.op (r0 :: rest) 0
            (grpc_call_create true maxlen md deadline) with ⟨e, stl, hv⟩
        rw [hl] at hloop
        simp only at hloop
        subst hloop
        rfl

/-- Witness for C7: the distinct batch SEND_INITIAL_METADATA, SEND_STATUS
on a fresh client call returns ALREADY_INVOKED, and the fresh slots are as
stated. -/
theorem c7_client_fresh_slots_witness :
    (grpc_call_create true 1000 [] none).request_set
      .SEND_TRAILING_METADATA = .DONE ∧
    (grpc_call_create true 1000 [] none).request_set
      .SEND_STATUS = .DONE ∧
    (∀ op, op ≠ .SEND_TRAILING_METADATA → op ≠ .SEND_STATUS →
      (grpc_call_create true 1000 [] none).request_set op = .EMPTY) ∧
    (∀ op, (grpc_call_create false 1000 [] none).request_set op =
      .EMPTY) ∧
    (start_ioreq (grpc_call_create true 1000 [] none)
      [⟨.SEND_INITIAL_METADATA, {}⟩, ⟨.SEND_STATUS, {}⟩] 0 0).1 =
      .GRPC_CALL_ERROR_ALREADY_INVOKED :=
  c7_client_fresh_slots 1000 [] none
    [⟨.SEND_INITIAL_METADATA, {}⟩, ⟨.SEND_STATUS, {}⟩] 0 0 (by decide)
    (by decide)

/-- C7 counterexample: the claim says any client submission containing
SEND_STATUS returns ALREADY_INVOKED, but a batch that duplicates
SEND_MESSAGE before reaching SEND_STATUS returns TOO_MANY_OPERATIONS. -/
theorem c7_claim_counterexample :
    (start_ioreq (grpc_call_create true 1000 [] none)
      [⟨.SEND_MESSAGE, {}⟩, ⟨.SEND_MESSAGE, {}⟩, ⟨.SEND_STATUS, {}⟩]
      0 0).1 = .GRPC_CALL_ERROR_TOO_MANY_OPERATIONS ∧
    grpc_call_error.GRPC_CALL_ERROR_TOO_MANY_OPERATIONS ≠
      .GRPC_CALL_ERROR_ALREADY_INVOKED :=
  ⟨by decide, by decide⟩

/-- C8: while reading a message, a non-empty slice that pushes the
accumulated length beyond the declared length makes add_slice_to_message
cancel the call — the API_OVERRIDE status becomes
GRPC_STATUS_INVALID_ARGUMENT with a detail string beginning with
"Receiving message overflow" and a cancel transport op is dispatched — and
report failure (return 0), aborting the receive batch; a slice that makes
the accumulated length exactly the declared length instead finishes the
message, pushing it onto the inbound queue and leaving message-reading
mode. -/
theorem c8_message_overflow (st : grpc_call) (slice : List Nat)
    (hread : st.reading_message = true) (hne : slice ≠ []) :
    (byte_buffer_length (st.incoming_message ++ [slice]) >
        st.incoming_message_length →
      (add_slice_to_message st slice).1 = 0 ∧
      ((add_slice_to_message st slice).2.status
        .STATUS_FROM_API_OVERRIDE).is_set = true ∧
      ((add_slice_to_message st slice).2.status
        .STATUS_FROM_API_OVERRIDE).code = GRPC_STATUS_INVALID_ARGUMENT ∧
      (∃ rest, ((add_slice_to_message st slice).2.status
        .STATUS_FROM_API_OVERRIDE).details =
          some ("Receiving message overflow" ++ rest)) ∧
      (∃ pre, (add_slice_to_message st slice).2.executed_ops =
        pre ++ [{ cancel_with_status := GRPC_STATUS_INVALID_ARGUMENT }])) ∧
    (byte_buffer_length (st.incoming_message ++ [slice]) =
        st.incoming_message_length →
      (add_slice_to_message st slice).1 = 1 ∧
      (add_slice_to_message st slice).2.incoming_queue =
        st.incoming_queue ++ [st.incoming_message ++ [slice]] ∧
      (add_slice_to_message st slice).2.reading_message = false ∧
      (add_slice_to_message st slice).2.incoming_message = []) := by
  have hlen : ¬(slice.length = 0) := by simpa using hne
  constructor
  · intro hover
    unfold add_slice_to_message
    rw [if_neg hlen, if_neg (by simp [hread])]
    dsimp only
    rw [if_pos hover]
    have hspec := cancel_with_status_spec
      { st with incoming_message := st.incoming_message ++ [slice] }
      GRPC_STATUS_INVALID_ARGUMENT
      (some ("Receiving message overflow; read " ++
        toString (byte_buffer_length (st.incoming_message ++ [slice])) ++
        " bytes, expected " ++ toString st.incoming_message_length))
    refine ⟨rfl, ?_, ?_, ?_, ?_⟩
    · rw [hspec.2.1]
    · rw [hspec.2.1]
    · refine ⟨"; read " ++
        toString (byte_buffer_length (st.incoming_message ++ [slice])) ++
        " bytes, expected " ++ toString st.incoming_message_length, ?_⟩
      rw [hspec.2.1]
      have hsplit : ("Receiving message overflow; read " : String) =
          "Receiving message overflow" ++ "; read " := by decide
      simp only [hsplit, String.append_assoc]
    · exact hspec.2.2.1
  · intro heq
    unfold add_slice_to_message
    rw [if_neg hlen, if_neg (by simp [hread])]
    dsimp only
    rw [if_neg (by omega), if_pos heq]
    exact ⟨rfl, by simp [finish_message], by simp [finish_message],
      by simp [finish_message]⟩

/-- Witness for C8: a client call reading a 3-byte message receives the
4-byte slice 1,2,3,4 and is cancelled with the overflow status; receiving
1,2,3 instead finishes the message onto the inbound queue. -/
theorem c8_message_overflow_witness :
    (add_slice_to_message
      ((begin_message (grpc_call_create true 1000 [] none) 3).2)
      [1, 2, 3, 4]).1 = 0 ∧
    ((add_slice_to_message
      ((begin_message (grpc_call_create true 1000 [] none) 3).2)
      [1, 2, 3, 4]).2.status .STATUS_FROM_API_OVERRIDE).code =
      GRPC_STATUS_INVALID_ARGUMENT ∧
    (add_slice_to_message
      ((begin_message (grpc_call_create true 1000 [] none) 3).2)
      [1, 2, 3]).1 = 1 ∧
    (add_slice_to_message
      ((begin_message (grpc_call_create true 1000 [] none) 3).2)
      [1, 2, 3]).2.reading_message = false := by
  have h1 := c8_message_overflow
    ((begin_message (grpc_call_create true 1000 [] none) 3).2)
    [1, 2, 3, 4] (by decide) (by decide)
  have h2 := c8_message_overflow
    ((begin_message (grpc_call_create true 1000 [] none) 3).2)
    [1, 2, 3] (by decide) (by decide)
  exact ⟨(h1.1 (by decide)).1, (h1.1 (by decide)).2.2.1,
    (h2.2 (by decide)).1, (h2.2 (by decide)).2.2.1⟩

/-- Retiring one slot touches neither the masters nor the queued
completions. -/
theorem retire_one_masters (mset : grpc_ioreq_op) (st : grpc_call)
    (i : grpc_ioreq_op) :
    (retire_one mset st i).masters = st.masters ∧
    (retire_one mset st i).completed_requests = st.completed_requests := by
  cases i <;>
    (unfold retire_one; dsimp only; (try split_ifs) <;>
      simp [upd_request_set, upd_request_data])

/-- Retiring slot i leaves it DONE or (a reusable message slot) EMPTY. -/
theorem retire_one_request_set_self (mset : grpc_ioreq_op) (st : grpc_call)
    (i : grpc_ioreq_op) :
    (retire_one mset st i).request_set i = .DONE ∨
    (retire_one mset st i).request_set i = .EMPTY := by
  cases i <;>
    (unfold retire_one; dsimp only; (try split_ifs) <;>
      simp [upd_request_set, upd_request_data, Function.update_same])

/-- Retiring slot i leaves every other slot unchanged. -/
theorem retire_one_request_set_other (mset : grpc_ioreq_op) (st : grpc_call)
    (i j : grpc_ioreq_op) (h : j ≠ i) :
    (retire_one mset st i).request_set j = st.request_set j := by
  cases i <;>
    (unfold retire_one; dsimp only; (try split_ifs) <;>
      simp [upd_request_set, upd_request_data, Function.update_noteq h])

/-- Behaviour of the group-retirement fold of finish_live_ioreq_op: masters
and queued completions are untouched; slots outside the iteration space or
outside the group are untouched; every slot of the group in the iteration
space ends DONE or EMPTY. -/
theorem retire_fold (mset : grpc_ioreq_op) (l : List grpc_ioreq_op) :
    ∀ st : grpc_call,
    ((l.foldl (fun s i =>
        if s.request_set i = .group mset then retire_one mset s i else s)
        st).masters = st.masters) ∧
    ((l.foldl (fun s i =>
        if s.request_set i = .group mset then retire_one mset s i else s)
        st).completed_requests = st.completed_requests) ∧
    (∀ j, j ∉ l →
      (l.foldl (fun s i =>
        if s.request_set i = .group mset then retire_one mset s i else s)
        st).request_set j = st.request_set j) ∧
    (∀ j, j ∈ l → st.request_set j = .group mset →
      ((l.foldl (fun s i =>
        if s.request_set i = .group mset then retire_one mset s i else s)
        st).request_set j = .DONE ∨
       (l.foldl (fun s i =>
        if s.request_set i = .group mset then retire_one mset s i else s)
        st).request_set j = .EMPTY)) ∧
    (∀ j, st.request_set j ≠ .group mset →
      (l.foldl (fun s i =>
        if s.request_set i = .group mset then retire_one mset s i else s)
        st).request_set j = st.request_set j) := by
  induction l with
  | nil => intro st; simp
  | cons i t ih =>
      intro st
      simp only [List.foldl_cons]
      set st1 := if st.request_set i = .group mset then retire_one mset st i
        else st with hst1
      have hbody_masters : st1.masters = st.masters ∧
          st1.completed_requests = st.completed_requests := by
        rw [hst1]
        split_ifs
        · exact retire_one_masters mset st i
        · exact ⟨rfl, rfl⟩
      have hbody_other : ∀ j, j ≠ i →
          st1.request_set j = st.request_set j := by
        intro j hj
        rw [hst1]
        split_ifs
        · exact retire_one_request_set_other mset st i j hj
        · rfl
      have hbody_self : st.request_set i = .group mset →
          (st1.request_set i = .DONE ∨ st1.request_set i = .EMPTY) := by
        intro hgi
        rw [hst1, if_pos hgi]
        exact retire_one_request_set_self mset st i
      have hbody_notgroup : ∀ j, st.request_set j ≠ .group mset →
          st1.request_set j = st.request_set j := by
        intro j hj
        by_cases hji : j = i
        · subst hji
          rw [hst1, if_neg hj]
        · exact hbody_other j hji
      obtain ⟨ihm, ihc, ihout, ihin, ihng⟩ := ih st1
      refine ⟨by rw [ihm, hbody_masters.1], by rw [ihc, hbody_masters.2],
        ?_, ?_, ?_⟩
      · intro j hj
        have hji : j ≠ i := fun hx => hj (by simp [hx])
        have hjt : j ∉ t := fun hx => hj (by simp [hx])
        rw [ihout j hjt, hbody_other j hji]
      · intro j hj hg
        by_cases hji : j = i
        · subst hji
          rcases hbody_self hg with hd | hd <;>
            · rw [ihng j (by rw [hd]; simp)]
              rw [hd]
              simp
        · have hjt : j ∈ t := by
            rcases List.mem_cons.mp hj with hx | hx
            · exact absurd hx hji
            · exact hx
          have hg1 : st1.request_set j = .group mset := by
            rw [hbody_other j hji]; exact hg
          exact ihin j hjt hg1
      · intro j hj
        have h1 : st1.request_set j = st.request_set j :=
          hbody_notgroup j hj
        rw [ihng j (by rw [h1]; exact hj), h1]

/-- C1: when finish_live_ioreq_op completes a group (the op's bit makes
complete_mask equal need_mask), exactly one entry carrying the group's
on_complete callback and user_data is pushed onto the completed-requests
queue, every slot of the group is retired to DONE or EMPTY, and a further
finish_ioreq_op on any op of that group is a no-op (the op is no longer
live), so no second completion entry can be pushed for the group. -/
theorem c1_group_completion (st : grpc_call) (op : grpc_ioreq_op)
    (status : grpc_op_error) (mset : grpc_ioreq_op)
    (hset : st.request_set op = .group mset)
    (hlive : is_op_live st op = true)
    (hdone : (st.masters mset).complete_mask ||| (1 <<< opIdx op) =
      (st.masters mset).need_mask) :
    (finish_live_ioreq_op st op status).completed_requests =
      st.completed_requests ++
        [{ on_complete := (st.masters mset).on_complete,
           user_data := (st.masters mset).user_data,
           status := if status ≠ .GRPC_OP_OK then status
             else (st.masters mset).status }] ∧
    (∀ i, st.request_set i = .group mset →
      ((finish_live_ioreq_op st op status).request_set i = .DONE ∨
       (finish_live_ioreq_op st op status).request_set i = .EMPTY) ∧
      is_op_live (finish_live_ioreq_op st op status) i = false ∧
      (∀ s2, finish_ioreq_op (finish_live_ioreq_op st op status) i s2 =
        finish_live_ioreq_op st op status)) := by
  have hmain : (finish_live_ioreq_op st op status).completed_requests =
      st.completed_requests ++
        [{ on_complete := (st.masters mset).on_complete,
           user_data := (st.masters mset).user_data,
           status := if status ≠ .GRPC_OP_OK then status
             else (st.masters mset).status }] ∧
      (∀ i, st.request_set i = .group mset →
        ((finish_live_ioreq_op st op status).request_set i = .DONE ∨
         (finish_live_ioreq_op st op status).request_set i = .EMPTY)) := by
    unfold finish_live_ioreq_op
    rw [hset]
    dsimp only
    by_cases hs : status ≠ grpc_op_error.GRPC_OP_OK
    · -- status ≠ OK
      rw [if_pos hs]
      split_ifs with hc
      · obtain ⟨hm, hcq, hout, hin, hng⟩ := retire_fold mset allOps
          (upd_master st mset
            { st.masters mset with
              complete_mask :=
                (st.masters mset).complete_mask ||| (1 <<< opIdx op),
              status := status })
        constructor
        · dsimp only
          rw [hcq, hm]
          simp [upd_master, Function.update_same]
        · intro i hg
          have hg2 : (upd_master st mset
              { st.masters mset with
                complete_mask :=
                  (st.masters mset).complete_mask ||| (1 <<< opIdx op),
                status := status }).request_set i = .group mset := hg
          have := hin i (mem_allOps i) hg2
          exact this
      · exact absurd (by simpa using hdone) hc
    · -- status = OK
      rw [if_neg hs]
      split_ifs with hc
      · obtain ⟨hm, hcq, hout, hin, hng⟩ := retire_fold mset allOps
          (upd_master st mset
            { st.masters mset with
              complete_mask :=
                (st.masters mset).complete_mask ||| (1 <<< opIdx op) })
        constructor
        · dsimp only
          rw [hcq, hm]
          simp [upd_master, Function.update_same]
        · intro i hg
          have hg2 : (upd_master st mset
              { st.masters mset with
                complete_mask :=
                  (st.masters mset).complete_mask ||| (1 <<< opIdx op)
            }).request_set i = .group mset := hg
          exact hin i (mem_allOps i) hg2
      · exact absurd (by simpa using hdone) hc
  refine ⟨hmain.1, ?_⟩
  intro i hg
  have hret := hmain.2 i hg
  have hlive2 : is_op_live (finish_live_ioreq_op st op status) i = false := by
    unfold is_op_live
    rcases hret with hd | hd <;> rw [hd]
  refine ⟨hret, hlive2, ?_⟩
  intro s2
  unfold finish_ioreq_op
  rw [hlive2]
  simp

/-- Witness for C1: a fresh server call starts a single-op SEND_MESSAGE
group; finishing that op completes the group, pushes exactly one completion
entry, retires the slot and makes a repeated finish a no-op. -/
theorem c1_group_completion_witness :
    (finish_live_ioreq_op
        ((start_ioreq (grpc_call_create false 1000 [] none)
          [⟨.SEND_MESSAGE, {}⟩] 7 8).2) .SEND_MESSAGE
        .GRPC_OP_OK).completed_requests =
      ((start_ioreq (grpc_call_create false 1000 [] none)
          [⟨.SEND_MESSAGE, {}⟩] 7 8).2).completed_requests ++
        [{ on_complete :=
            (((start_ioreq (grpc_call_create false 1000 [] none)
              [⟨.SEND_MESSAGE, {}⟩] 7 8).2).masters
                .SEND_MESSAGE).on_complete,
           user_data :=
            (((start_ioreq (grpc_call_create false 1000 [] none)
              [⟨.SEND_MESSAGE, {}⟩] 7 8).2).masters
                .SEND_MESSAGE).user_data,
           status := if (grpc_op_error.GRPC_OP_OK ≠ .GRPC_OP_OK) then
               .GRPC_OP_OK
             else (((start_ioreq (grpc_call_create false 1000 [] none)
               [⟨.SEND_MESSAGE, {}⟩] 7 8).2).masters
                 .SEND_MESSAGE).status }] ∧
    (∀ i, ((start_ioreq (grpc_call_create false 1000 [] none)
        [⟨.SEND_MESSAGE, {}⟩] 7 8).2).request_set i =
          .group .SEND_MESSAGE →
      (((finish_live_ioreq_op
          ((start_ioreq (grpc_call_create false 1000 [] none)
            [⟨.SEND_MESSAGE, {}⟩] 7 8).2) .SEND_MESSAGE
          .GRPC_OP_OK).request_set i = .DONE ∨
        (finish_live_ioreq_op
          ((start_ioreq (grpc_call_create false 1000 [] none)
            [⟨.SEND_MESSAGE, {}⟩] 7 8).2) .SEND_MESSAGE
          .GRPC_OP_OK).request_set i = .EMPTY)) ∧
      is_op_live (finish_live_ioreq_op
        ((start_ioreq (grpc_call_create false 1000 [] none)
          [⟨.SEND_MESSAGE, {}⟩] 7 8).2) .SEND_MESSAGE
        .GRPC_OP_OK) i = false ∧
      (∀ s2, finish_ioreq_op (finish_live_ioreq_op
          ((start_ioreq (grpc_call_create false 1000 [] none)
            [⟨.SEND_MESSAGE, {}⟩] 7 8).2) .SEND_MESSAGE
          .GRPC_OP_OK) i s2 =
        finish_live_ioreq_op
          ((start_ioreq (grpc_call_create false 1000 [] none)
            [⟨.SEND_MESSAGE, {}⟩] 7 8).2) .SEND_MESSAGE
          .GRPC_OP_OK)) :=
  c1_group_completion
    ((start_ioreq (grpc_call_create false 1000 [] none)
      [⟨.SEND_MESSAGE, {}⟩] 7 8).2) .SEND_MESSAGE .GRPC_OP_OK .SEND_MESSAGE
    (by decide) (by decide) (by decide)

/-- Witness for C9 at S = 9 and the non-numeric value "nope". -/
theorem c9_status_roundtrip_witness :
    (decode_status ⟨"grpc-status", gpr_ltoa 9, none⟩).1 = 9 ∧
    (decode_status ⟨"grpc-status", gpr_ltoa 9, none⟩).2.user_data =
      some (9 + STATUS_OFFSET) ∧
    (decode_status (decode_status ⟨"grpc-status", gpr_ltoa 9, none⟩).2).1 = 9 ∧
    (decode_status ⟨"grpc-status", "nope", none⟩).1 = GRPC_STATUS_UNKNOWN :=
  c9_status_roundtrip 9 "grpc-status" "nope" (by decide)

theorem rw_le_refl (a : grpc_call) : rw_le a a :=
  ⟨Nat.le_refl _, Nat.le_refl _⟩

theorem rw_le_trans {a b c : grpc_call} (h1 : rw_le a b) (h2 : rw_le b c) :
    rw_le a c :=
  ⟨rs_le_trans h1.1 h2.1, ws_le_trans h1.2 h2.2⟩

theorem rw_le_of_eqs {a b : grpc_call} (h1 : b.read_state = a.read_state)
    (h2 : b.write_state = a.write_state) : rw_le a b := by
  refine ⟨?_, ?_⟩
  · rw [h1]; exact rs_le_refl _
  · rw [h2]; exact ws_le_refl _

theorem set_status_code_rw (st : grpc_call) (src : status_source)
    (code : Nat) : rw_le st (set_status_code st src code) :=
  rw_le_of_eqs (set_status_code_frame st src code).1
    (set_status_code_frame st src code).2.1

theorem set_status_details_rw (st : grpc_call) (src : status_source)
    (d : Option String) : rw_le st (set_status_details st src d) :=
  rw_le_of_eqs rfl rfl

theorem unlock_rw (st : grpc_call) : rw_le st (unlock st) :=
  ⟨by rw [(unlock_frame st).2.1]; exact rs_le_refl _,
   (unlock_frame st).2.2.2.2.2.2.2.2.2⟩

theorem fill_send_ops_rw (st : grpc_call) (op : grpc_transport_op) :
    rw_le st (fill_send_ops st op).1 :=
  ⟨by rw [(fill_send_ops_frame st op).2.2.1]; exact rs_le_refl _,
   fill_send_ops_ws_mono st op⟩

theorem cancel_with_status_rw (st : grpc_call) (code : Nat)
    (desc : Option String) :
    rw_le st (grpc_call_cancel_with_status st code desc).2 :=
  ⟨by rw [(cancel_with_status_spec st code desc).2.2.2.1]
      exact rs_le_refl _,
   (cancel_with_status_spec st code desc).2.2.2.2.1⟩

theorem cancel_rw (st : grpc_call) : rw_le st (grpc_call_cancel st).2 :=
  cancel_with_status_rw st GRPC_STATUS_CANCELLED (some "Cancelled")

theorem finish_message_rw (st : grpc_call) : rw_le st (finish_message st) :=
  rw_le_of_eqs rfl rfl

/-- Retiring one slot never moves the read state and only ever raises the
write state (to WRITE_CLOSED on a failed message). -/
theorem retire_one_rw (mset : grpc_ioreq_op) (st : grpc_call)
    (i : grpc_ioreq_op) : rw_le st (retire_one mset st i) := by
  cases i <;>
    (unfold retire_one; dsimp only; (try split_ifs)) <;>
    first
      | exact ⟨Nat.le_refl _, Nat.le_refl _⟩
      | exact ⟨Nat.le_refl _, ws_le_top _⟩

theorem retire_fold_rw (mset : grpc_ioreq_op) (l : List grpc_ioreq_op) :
    ∀ st : grpc_call,
    rw_le st (l.foldl (fun s i =>
      if s.request_set i = .group mset then retire_one mset s i else s)
      st) := by
  induction l with
  | nil => intro st; simp; exact rw_le_refl st
  | cons i t ih =>
      intro st
      simp only [List.foldl_cons]
      refine rw_le_trans ?_ (ih _)
      split_ifs
      · exact retire_one_rw mset st i
      · exact rw_le_refl st

theorem upd_master_rw (st : grpc_call) (g : grpc_ioreq_op)
    (m : reqinfo_master) : rw_le st (upd_master st g m) :=
  ⟨Nat.le_refl _, Nat.le_refl _⟩

theorem rw_le_push {a b : grpc_call} {l : List completed_request}
    (h : rw_le a b) : rw_le a { b with completed_requests := l } :=
  ⟨h.1, h.2⟩

theorem finish_live_rw (st : grpc_call) (op : grpc_ioreq_op)
    (status : grpc_op_error) :
    rw_le st (finish_live_ioreq_op st op status) := by
  unfold finish_live_ioreq_op
  split
  · dsimp only
    split_ifs <;>
      first
        | exact rw_le_push
            (rw_le_trans (upd_master_rw st _ _) (retire_fold_rw _ allOps _))
        | exact upd_master_rw st _ _
  · exact rw_le_refl st

theorem finish_ioreq_rw (st : grpc_call) (op : grpc_ioreq_op)
    (status : grpc_op_error) : rw_le st (finish_ioreq_op st op status) := by
  unfold finish_ioreq_op
  split_ifs
  · exact finish_live_rw st op status
  · exact rw_le_refl st

theorem begin_message_rw (st : grpc_call) (len : Nat) :
    rw_le st (begin_message st len).2 := by
  unfold begin_message
  split_ifs <;>
    first
      | exact cancel_with_status_rw _ _ _
      | exact ⟨Nat.le_refl _, Nat.le_refl _⟩
      | exact finish_message_rw st

theorem begin_message_rs (st : grpc_call) (len : Nat) :
    (begin_message st len).2.read_state = st.read_state := by
  unfold begin_message
  split_ifs <;>
    first
      | exact (cancel_with_status_spec _ _ _).2.2.2.1
      | rfl

theorem rw_le_cancel_of (a b : grpc_call) (c : Nat)
    (d : Option String) (h : rw_le a b) :
    rw_le a (grpc_call_cancel_with_status b c d).2 :=
  rw_le_trans h (cancel_with_status_rw b c d)

set_option maxHeartbeats 1000000 in
theorem add_slice_rw (st : grpc_call) (slice : List Nat) :
    rw_le st (add_slice_to_message st slice).2 := by
  unfold add_slice_to_message
  dsimp only
  split_ifs
  all_goals dsimp only
  · exact rw_le_refl st
  · exact rw_le_cancel_of _ _ _ _ ⟨Nat.le_refl _, Nat.le_refl _⟩
  · refine rw_le_trans ?_ (finish_message_rw _)
    exact ⟨Nat.le_refl _, Nat.le_refl _⟩
  · exact ⟨Nat.le_refl _, Nat.le_refl _⟩
  · exact rw_le_cancel_of _ _ _ _ (rw_le_refl st)

set_option maxHeartbeats 1000000 in
theorem add_slice_rs (st : grpc_call) (slice : List Nat) :
    (add_slice_to_message st slice).2.read_state = st.read_state := by
  unfold add_slice_to_message
  dsimp only
  split_ifs
  all_goals dsimp only
  · exact (cancel_with_status_spec _ _ _).2.2.2.1
  · rfl
  · exact (cancel_with_status_spec _ _ _).2.2.2.1

theorem recv_md_elem_rs (tr : Bool) (st : grpc_call) (e : mdelem) :
    (recv_md_elem tr st e).read_state = st.read_state ∧
    (recv_md_elem tr st e).write_state = st.write_state := by
  unfold recv_md_elem
  split_ifs <;>
    first
      | exact ⟨(set_status_code_frame _ _ _).1,
          (set_status_code_frame _ _ _).2.1⟩
      | exact ⟨rfl, rfl⟩

theorem recv_md_fold_rs (tr : Bool) (l : List mdelem) :
    ∀ st : grpc_call,
    (l.foldl (recv_md_elem tr) st).read_state = st.read_state ∧
    (l.foldl (recv_md_elem tr) st).write_state = st.write_state := by
  induction l with
  | nil => intro st; exact ⟨rfl, rfl⟩
  | cons e t ih =>
      intro st
      simp only [List.foldl_cons]
      refine ⟨?_, ?_⟩
      · rw [(ih _).1, (recv_md_elem_rs tr st e).1]
      · rw [(ih _).2, (recv_md_elem_rs tr st e).2]

theorem set_deadline_alarm_rs (st : grpc_call) (d : Nat) :
    (set_deadline_alarm st d).read_state = st.read_state ∧
    (set_deadline_alarm st d).write_state = st.write_state := by
  unfold set_deadline_alarm
  split_ifs <;> exact ⟨rfl, rfl⟩

/-- recv_metadata either leaves the read state alone (a trailing batch) or
advances it from INITIAL to GOT_INITIAL_METADATA; the write state is
untouched. -/
theorem recv_metadata_rs (st : grpc_call) (md : metadata_batch) :
    ((recv_metadata st md).read_state = st.read_state ∨
     ((recv_metadata st md).read_state =
        .READ_STATE_GOT_INITIAL_METADATA ∧
      st.read_state = .READ_STATE_INITIAL)) ∧
    (recv_metadata st md).write_state = st.write_state := by
  unfold recv_metadata
  dsimp only
  have hf := recv_md_fold_rs
    (decide (read_state.READ_STATE_GOT_INITIAL_METADATA ≤ st.read_state))
    md.list st
  have hinit : ¬(read_state.READ_STATE_GOT_INITIAL_METADATA ≤
      st.read_state) → st.read_state = .READ_STATE_INITIAL := by
    intro h
    cases h2 : st.read_state <;> rw [h2] at h <;>
      first | rfl | exact absurd (by decide) h
  cases hd : md.deadline with
  | none =>
      dsimp only
      by_cases htr : read_state.READ_STATE_GOT_INITIAL_METADATA ≤
          st.read_state
      · rw [if_neg (by simp [htr])]
        exact ⟨Or.inl hf.1, hf.2⟩
      · rw [if_pos (by simp [htr])]
        exact ⟨Or.inr ⟨rfl, hinit htr⟩, hf.2⟩
  | some d =>
      dsimp only
      have hda := set_deadline_alarm_rs
        (md.list.foldl (recv_md_elem
          (decide (read_state.READ_STATE_GOT_INITIAL_METADATA ≤
            st.read_state))) st) d
      by_cases htr : read_state.READ_STATE_GOT_INITIAL_METADATA ≤
          st.read_state
      · rw [if_neg (by simp [htr])]
        exact ⟨Or.inl (by rw [hda.1, hf.1]), by rw [hda.2, hf.2]⟩
      · rw [if_pos (by simp [htr])]
        exact ⟨Or.inr ⟨rfl, hinit htr⟩, by rw [hda.2, hf.2]⟩

theorem recv_metadata_rw (st : grpc_call) (md : metadata_batch) :
    rw_le st (recv_metadata st md) := by
  obtain ⟨hrs, hws⟩ := recv_metadata_rs st md
  refine ⟨?_, by rw [hws]; exact ws_le_refl _⟩
  rcases hrs with h | ⟨h1, h2⟩
  · rw [h]; exact rs_le_refl _
  · rw [h1, h2]; decide


theorem recv_dispatch_rw (acc : Nat × grpc_call) (op : recv_op) :
    rw_le acc.2 (recv_dispatch acc op).2 := by
  unfold recv_dispatch
  split_ifs
  · exact rw_le_refl _
  · cases op with
    | no_op => exact rw_le_refl _
    | metadata b => exact recv_metadata_rw _ b
    | begin_message len => exact begin_message_rw _ len
    | slice s => exact add_slice_rw _ s

theorem recv_dispatch_rs_le (acc : Nat × grpc_call) (op : recv_op)
    (h : acc.2.read_state ≤ read_state.READ_STATE_READ_CLOSED) :
    (recv_dispatch acc op).2.read_state ≤
      read_state.READ_STATE_READ_CLOSED := by
  unfold recv_dispatch
  split_ifs
  · exact h
  · cases op with
    | no_op => exact h
    | metadata b =>
        dsimp only
        rcases (recv_metadata_rs acc.2 b).1 with he | ⟨h1, _⟩
        · rw [he]; exact h
        · rw [h1]; decide
    | begin_message len => dsimp only; rw [begin_message_rs]; exact h
    | slice s => dsimp only; rw [add_slice_rs]; exact h

theorem recv_fold_rw (ops : List recv_op) :
    ∀ acc : Nat × grpc_call, rw_le acc.2 (ops.foldl recv_dispatch acc).2 := by
  induction ops with
  | nil => intro acc; exact rw_le_refl _
  | cons o t ih =>
      intro acc
      simp only [List.foldl_cons]
      exact rw_le_trans (recv_dispatch_rw acc o) (ih _)

theorem recv_fold_rs_le (ops : List recv_op) :
    ∀ acc : Nat × grpc_call,
    acc.2.read_state ≤ read_state.READ_STATE_READ_CLOSED →
    (ops.foldl recv_dispatch acc).2.read_state ≤
      read_state.READ_STATE_READ_CLOSED := by
  induction ops with
  | nil => intro acc h; exact h
  | cons o t ih =>
      intro acc h
      simp only [List.foldl_cons]
      exact ih _ (recv_dispatch_rs_le acc o h)

set_option maxHeartbeats 1000000 in
theorem finish_read_ops_rw (st : grpc_call) :
    rw_le st (finish_read_ops st) := by
  unfold finish_read_ops
  dsimp only
  by_cases hl : is_op_live st .RECV_MESSAGE = true
  · rw [if_pos hl]
    cases hq : st.incoming_queue with
    | nil =>
        dsimp only
        split_ifs <;>
          (repeat refine rw_le_trans ?_ (finish_ioreq_rw _ _ _)) <;>
          exact ⟨Nat.le_refl _, Nat.le_refl _⟩
    | cons b rest =>
        dsimp only
        split_ifs <;>
          (repeat first
            | refine rw_le_trans ?_ (finish_ioreq_rw _ _ _)
            | refine rw_le_trans ?_ (finish_live_rw _ _ _)) <;>
          exact ⟨Nat.le_refl _, Nat.le_refl _⟩
  · rw [if_neg hl]
    dsimp only
    split_ifs <;>
      (repeat refine rw_le_trans ?_ (finish_ioreq_rw _ _ _)) <;>
      exact rw_le_refl st

theorem early_out_write_ops_rw (st : grpc_call) :
    rw_le st (early_out_write_ops st) := by
  unfold early_out_write_ops
  cases hws : st.write_state <;>
    dsimp only <;>
    (repeat refine rw_le_trans ?_ (finish_ioreq_rw _ _ _)) <;>
    exact ⟨Nat.le_refl _, Nat.le_refl _⟩

theorem start_ioreq_loop_rs_ws (opset : grpc_ioreq_op)
    (reqs : List grpc_ioreq) :
    ∀ (have_ops : Nat) (st : grpc_call),
    (start_ioreq_loop opset reqs have_ops st).2.1.read_state =
      st.read_state ∧
    (start_ioreq_loop opset reqs have_ops st).2.1.write_state =
      st.write_state := by
  induction reqs with
  | nil => intro hops st; exact ⟨rfl, rfl⟩
  | cons r rest ih =>
      intro hops st
      unfold start_ioreq_loop
      cases hslot : st.request_set r.op <;> dsimp only
      · exact ih _ _
      · exact ⟨rfl, rfl⟩
      · exact ⟨rfl, rfl⟩

theorem start_ioreq_rw (st : grpc_call) (reqs : List grpc_ioreq)
    (completion user_data : Nat) :
    rw_le st (start_ioreq st reqs completion user_data).2 := by
  unfold start_ioreq
  cases reqs with
  | nil => exact rw_le_refl st
  | cons r0 rest =>
      dsimp only
      have hpre := start_ioreq_loop_rs_ws r0.op (r0 :: rest) 0 st
      rcases hres : start_ioreq_loop r0.op (r0 :: rest) 0 st with
        ⟨err, st2, hops⟩
      rw [hres] at hpre
      dsimp only at hpre
      cases err <;> dsimp only <;>
        first
          | (refine rw_le_trans ?_ (early_out_write_ops_rw _)
             refine rw_le_trans ?_ (finish_read_ops_rw _)
             refine rw_le_trans ?_ (upd_master_rw _ _ _)
             exact rw_le_of_eqs hpre.1 hpre.2)
          | exact rw_le_of_eqs hpre.1 hpre.2

theorem start_ioreq_cb_rw (st : grpc_call) (reqs : List grpc_ioreq)
    (completion user_data : Nat) :
    rw_le st (grpc_call_start_ioreq_and_call_back st reqs completion
      user_data).2 := by
  unfold grpc_call_start_ioreq_and_call_back
  dsimp only
  exact rw_le_trans (start_ioreq_rw st reqs completion user_data)
    (unlock_rw _)

theorem rw_le_send_clear {a b : grpc_call} (h : rw_le a b) :
    rw_le a { b with last_send_contains := 0, sending := false } := h

theorem call_on_done_send_rw (st : grpc_call) (success : Bool) :
    rw_le st (call_on_done_send st success) := by
  unfold call_on_done_send
  dsimp only
  split_ifs <;>
    (refine rw_le_trans ?_ (unlock_rw _)) <;>
    (refine rw_le_send_clear ?_) <;>
    (repeat refine rw_le_trans ?_ (finish_ioreq_rw _ _ _)) <;>
    exact rw_le_refl st

theorem call_on_done_recv_rw (st : grpc_call) (success : Bool)
    (ops : List recv_op) (recv_state : grpc_stream_state)
    (h : recv_state = .GRPC_STREAM_RECV_CLOSED →
      st.read_state ≤ read_state.READ_STATE_READ_CLOSED) :
    rw_le st (call_on_done_recv st success ops recv_state) := by
  unfold call_on_done_recv
  dsimp only
  refine rw_le_trans ?_ (unlock_rw _)
  by_cases hsucc : success = true
  · rw [if_pos hsucc]
    by_cases hrc : recv_state = grpc_stream_state.GRPC_STREAM_RECV_CLOSED
    · rw [if_pos hrc, if_neg (by rw [hrc]; decide)]
      refine rw_le_trans ?_ (finish_read_ops_rw _)
      exact ⟨h hrc,
        (recv_fold_rw ops (1, { st with receiving := false })).2⟩
    · rw [if_neg hrc]
      by_cases hsc : recv_state = grpc_stream_state.GRPC_STREAM_CLOSED
      · rw [if_pos hsc]
        refine rw_le_trans ?_ (finish_read_ops_rw _)
        exact ⟨rs_le_top _,
          (recv_fold_rw ops (1, { st with receiving := false })).2⟩
      · rw [if_neg hsc]
        refine rw_le_trans ?_ (finish_read_ops_rw _)
        exact recv_fold_rw ops (1, { st with receiving := false })
  · rw [if_neg hsucc]
    (repeat refine rw_le_trans ?_ (finish_ioreq_rw _ _ _))
    exact ⟨Nat.le_refl _, Nat.le_refl _⟩

theorem destroy_rw (st : grpc_call) : rw_le st (grpc_call_destroy st) := by
  unfold grpc_call_destroy
  dsimp only
  split_ifs
  · refine rw_le_trans ?_ (cancel_rw _)
    refine rw_le_trans ?_ (unlock_rw _)
    exact ⟨Nat.le_refl _, Nat.le_refl _⟩
  · refine rw_le_trans ?_ (unlock_rw _)
    exact ⟨Nat.le_refl _, Nat.le_refl _⟩

theorem step_rw_le {a b : grpc_call} (h : Step a b) : rw_le a b := by
  cases h with
  | set_status_code src code => exact set_status_code_rw a src code
  | set_status_details src d => exact set_status_details_rw a src d
  | finish_ioreq_op op status => exact finish_ioreq_rw a op status
  | finish_read_ops => exact finish_read_ops_rw a
  | early_out_write_ops => exact early_out_write_ops_rw a
  | start_ioreq reqs completion user_data =>
      exact start_ioreq_cb_rw a reqs completion user_data
  | fill_send_ops op => exact fill_send_ops_rw a op
  | unlock => exact unlock_rw a
  | call_on_done_send success => exact call_on_done_send_rw a success
  | call_on_done_recv success ops recv_state hg =>
      exact call_on_done_recv_rw a success ops recv_state hg
  | recv_metadata md => exact recv_metadata_rw a md
  | begin_message len => exact begin_message_rw a len
  | add_slice_to_message slice => exact add_slice_rw a slice
  | finish_message => exact finish_message_rw a
  | cancel_with_status status d => exact cancel_with_status_rw a status d
  | cancel => exact cancel_rw a
  | destroy => exact destroy_rw a

/-- C3: along any history of modelled call operations, read_state and
write_state never move backwards: each field only ever advances through the
state machine, never regressing. -/
theorem c3_read_write_state_monotone (st st2 : grpc_call)
    (h : Relation.ReflTransGen Step st st2) : rw_le st st2 := by
  induction h with
  | refl => exact rw_le_refl st
  | tail hab hbc ih => exact rw_le_trans ih (step_rw_le hbc)

/-- Witness for C3: a concrete two-step history (an unlock pump followed by
grpc_call_cancel) on a fresh client call. -/
theorem c3_read_write_state_monotone_witness :
    rw_le (grpc_call_create true 100 [] none)
      (grpc_call_cancel (unlock (grpc_call_create true 100 [] none))).2 :=
  c3_read_write_state_monotone _ _
    (Relation.ReflTransGen.tail
      (Relation.ReflTransGen.single (Step.unlock _))
      (Step.cancel _))

end GrpcCall
